import Mathlib

/-!
Verification of the indoor routing engine (visibility graph + A* + route
query protocol) of the maplibra_map repository, against its
natural-language specification.

Shallow embedding conventions:
* Coordinates `[lng, lat]` are pairs of rationals.
* `turf.distance` (geodesic meters) is a parameter `dist : Coord → Coord → ℚ`
  of the definitions that use it; the repository code treats it as an
  opaque metric supplied by the turf library.
* `Math.sqrt` is likewise a parameter where the code stores a square root
  (edge weights); branch conditions of the form `sqrt x < b` in the source
  are embedded as the equivalent `x < b^2` (both sides nonnegative).
* `Math.cos(lat * π/180)` inside the equirectangular fast path of
  EdgeBuilder is a parameter `cosDeg : ℚ → ℚ`.
* The turf-backed geometry predicates of CollisionDetector
  (`pointInObstacle`, `lineIntersectsObstacle`, which fold the per-floor
  obstacle data into library calls) are fields of a `CollisionModel`;
  everything the repository itself computes from them is embedded.
* JS `Map`s are association lists keeping insertion order (needed for the
  LRU path cache); JS `Set`s are lists queried with `contains`.
-/

/-- A `[lng, lat]` coordinate pair. -/
abbrev Coord := ℚ × ℚ

abbrev FloorId := String

abbrev NodeId := String

/-- JS `Math.round`: round half toward positive infinity. -/
def roundJS (q : ℚ) : ℤ := ⌊q + 1/2⌋

/-- Association-list lookup, modelling `Map.get`. -/
def mapGet? {κ α : Type} [BEq κ] (m : List (κ × α)) (k : κ) : Option α :=
  (m.find? (fun p => p.1 == k)).map Prod.snd

/-- `Map.set`: update in place when the key exists, else append (JS keeps
the original insertion position on overwrite). -/
def mapSet {κ α : Type} [BEq κ] (m : List (κ × α)) (k : κ) (v : α) :
    List (κ × α) :=
  match m with
  | [] => [(k, v)]
  | p :: rest => if p.1 == k then (k, v) :: rest else p :: mapSet rest k v

/-! ## Node, edge and graph data model -/

/-- Node metadata as used by the pathfinding code. `roomIds` is `none` when
the JS property is absent (the code falls back to a `roomId` singleton in
that case); a present-but-empty array is `some []`, which JS treats as
truthy. -/
structure Metadata where
  isDoor : Bool := false
  isPublic : Bool := false
  isLocked : Bool := false
  isStairs : Bool := false
  isElevator : Bool := false
  roomIds : Option (List String) := none
  roomId : Option String := none
deriving DecidableEq

structure Node where
  id : NodeId
  coords : Coord
  floorId : FloorId
  type : String := "walkable"
  metadata : Metadata := {}
deriving DecidableEq

/-- A directed edge out of some node; `weight` is `none` when the edge
record carries no weight (A* then recomputes it from `turf.distance`). -/
structure Edge where
  target : NodeId
  weight : Option ℚ := none
  type : String := "walkable"
  accessible : Bool := true
deriving DecidableEq

/-- Modelled from the spec: the `Graph` component (its source file is not
part of the provided sources). `nodes`: mapping id → Node; `edges_out`:
mapping id → sequence of edges. Only these two lookups are needed by the
embedded code. -/
structure Graph where
  nodes : List Node
  edgesOut : NodeId → List Edge

def Graph.getNode (g : Graph) (id : NodeId) : Option Node :=
  g.nodes.find? (fun n => n.id == id)

def Graph.getEdges (g : Graph) (id : NodeId) : List Edge :=
  g.edgesOut id

/-! ## CollisionDetector -/

/-- The two turf-backed geometry predicates of `CollisionDetector`, with
the per-floor obstacle polygons and door segments folded in.
`pointInObstacle coords floor` is true iff the point lies in an obstacle
polygon of that floor and is not within door tolerance of a door segment;
`lineIntersectsObstacle a b floor` is true iff the segment crosses an
obstacle with some intersection point away from every door segment. -/
structure CollisionModel where
  pointInObstacle : Coord → FloorId → Bool
  lineIntersectsObstacle : Coord → Coord → FloorId → Bool

/-- `CollisionDetector.isPathClear`: both endpoints outside obstacles and
the segment free of (non-door) obstacle intersections. -/
def isPathClear (cm : CollisionModel) (startCoords endCoords : Coord)
    (floorId : FloorId) : Bool :=
  if cm.pointInObstacle startCoords floorId
      || cm.pointInObstacle endCoords floorId then
    false
  else
    !(cm.lineIntersectsObstacle startCoords endCoords floorId)

/-- Squared approximate segment length in meters, as computed in
`isPathClearRelaxed`: squared degree distance times `111320²`. The source
compares `sqrt(dx²+dy²) * 111320` against 2 and 10; we compare the square
against 4 and 100. -/
def relaxedDistMetersSq (startCoords endCoords : Coord) : ℚ :=
  let dx := endCoords.1 - startCoords.1
  let dy := endCoords.2 - startCoords.2
  (dx * dx + dy * dy) * (111320 * 111320)

/-- `CollisionDetector.isPathClearRelaxed`: skip all checks below 2m, only
the line-intersection check below 10m, the strict check otherwise. -/
def isPathClearRelaxed (cm : CollisionModel) (startCoords endCoords : Coord)
    (floorId : FloorId) : Bool :=
  if relaxedDistMetersSq startCoords endCoords < 2 * 2 then
    true
  else if relaxedDistMetersSq startCoords endCoords < 10 * 10 then
    !(cm.lineIntersectsObstacle startCoords endCoords floorId)
  else
    isPathClear cm startCoords endCoords floorId

/-! ## PathCache -/

/-- `PathCache.generateKey` rounds each coordinate with
`Math.round(c * 10000) / 10000`. -/
def roundCoord (c : ℚ) : ℚ := (roundJS (c * 10000) : ℚ) / 10000

/-- The cache key of `PathCache.generateKey`, as a tuple. The source
builds the string
`"sLng,sLat,sFloor|eLng,eLat,eFloor|base:roomMode:doorCount:area"`, an
injective encoding of exactly these components (`none` prints as the empty
string for the two numeric options). -/
structure CacheKey where
  sLng : ℚ
  sLat : ℚ
  sFloor : FloorId
  eLng : ℚ
  eLat : ℚ
  eFloor : FloorId
  base : String
  roomMode : String
  doorCount : Option ℚ
  area : Option ℚ
deriving DecidableEq

/-- The caller-facing options of `findRoute` (only the fields the embedded
code reads). `Option` fields model absent JS options. -/
structure RouteOptions where
  useCache : Bool := true
  snapToDoors : Bool := true
  allowLockedDoors : Bool := false
  roomTraversalMode : Option String := none
  publicRoomDoorCount : Option ℚ := none
  publicRoomArea : Option ℚ := none
  accessibleOnly : Bool := false
  avoidStairs : Bool := false
  heuristicWeight : ℚ := 1
  allowedRoomIds : Option (List String) := none
  disallowOtherRooms : Bool := false
  nodeFilter : Option (Node → Bool) := none

/-- `PathCache.generateKey`. -/
def generateKey (startCoords endCoords : Coord)
    (startFloorId endFloorId : FloorId) (options : RouteOptions) : CacheKey :=
  { sLng := roundCoord startCoords.1
    sLat := roundCoord startCoords.2
    sFloor := startFloorId
    eLng := roundCoord endCoords.1
    eLat := roundCoord endCoords.2
    eFloor := endFloorId
    base := if options.accessibleOnly then "acc" else "std"
    roomMode := options.roomTraversalMode.getD
      (if options.disallowOtherRooms then "strict" else "all")
    doorCount := options.publicRoomDoorCount
    area := options.publicRoomArea }

/-! ## EdgeBuilder -/

/-- One record of the flat edge list produced by
`EdgeBuilder.buildEdgesForFloor` (JS fields `from`/`to` are `fromId`/`toId`
here since `from` is reserved in Lean). -/
structure EdgeRec where
  fromId : NodeId
  toId : NodeId
  weight : ℚ
  type : String
deriving DecidableEq

/-- Axis-aligned query rectangle handed to the spatial index. -/
structure Rect where
  minX : ℚ
  minY : ℚ
  maxX : ℚ
  maxY : ℚ

/-- State of the bounded selection in
`EdgeBuilder.selectNearestCandidates`: the `best` array plus the tracked
worst entry (`worstIndex = -1` is `none`, `worstDistSq = -Infinity` is
`⊥`). -/
structure SelState where
  best : List (Node × ℚ)
  worstIndex : Option Nat
  worstDistSq : WithBot ℚ

/-- The recompute-the-worst scan after an in-place replacement (the
`for (let i = 0; ...)` loop of `selectNearestCandidates`). -/
def recomputeWorst (best : List (Node × ℚ)) : Option Nat × WithBot ℚ :=
  best.enum.foldl
    (fun acc p =>
      if (p.2.2 : WithBot ℚ) > acc.2 then (some p.1, (p.2.2 : WithBot ℚ)) else acc)
    (none, ⊥)

/-- One iteration of the candidate loop of `selectNearestCandidates`. -/
def selectStep (nodeA : Node) (maxNeighbors : Nat) (s : SelState)
    (candidate : Node) : SelState :=
  if candidate.id == nodeA.id then s
  else
    let dx := candidate.coords.1 - nodeA.coords.1
    let dy := candidate.coords.2 - nodeA.coords.2
    let distSq := dx * dx + dy * dy
    if s.best.length < maxNeighbors then
      let best := s.best ++ [(candidate, distSq)]
      if (distSq : WithBot ℚ) > s.worstDistSq then
        { best := best, worstIndex := some (best.length - 1), worstDistSq := distSq }
      else
        { s with best := best }
    else if (distSq : WithBot ℚ) ≥ s.worstDistSq then s
    else
      let best := s.best.set (s.worstIndex.getD 0) (candidate, distSq)
      let rw := recomputeWorst best
      { best := best, worstIndex := rw.1, worstDistSq := rw.2 }

/-- `EdgeBuilder.selectNearestCandidates`: keep the `maxNeighbors` nearest
candidates (squared degree distance) with a bounded in-place selection,
then sort ascending (JS `Array.sort` is stable). -/
def selectNearestCandidates (nodeA : Node) (candidates : List Node)
    (maxNeighbors : Nat) : List Node :=
  let final := candidates.foldl (selectStep nodeA maxNeighbors)
    { best := [], worstIndex := none, worstDistSq := ⊥ }
  (final.best.mergeSort (fun a b => a.2 ≤ b.2)).map Prod.fst

/-- The exact squared meter distance computed in the inner loop of
`buildEdgesForFloor` (equirectangular, longitude scaled by the cosine of
A's latitude). -/
def edgeDistSqMeters (cosDeg : ℚ → ℚ) (nodeA nodeB : Node) : ℚ :=
  let metersPerDegreeLng := cosDeg nodeA.coords.2 * 111320
  let dxMeters := (nodeB.coords.1 - nodeA.coords.1) * metersPerDegreeLng
  let dyMeters := (nodeB.coords.2 - nodeA.coords.2) * 111320
  dxMeters * dxMeters + dyMeters * dyMeters

/-- The `for (const nodeB of candidates)` loop of `buildEdgesForFloor` for
one node `A`, with the accepted-edge counter and the neighbor-limit
break. -/
def buildEdgesForNode (cm : CollisionModel) (cosDeg sqrtQ : ℚ → ℚ)
    (floorId : FloorId) (maxDistSqMeters : ℚ) (nodeA : Node)
    (neighborLimit : Option Nat) :
    List Node → Nat → List EdgeRec
  | [], _ => []
  | nodeB :: rest, addedForNode =>
    if nodeB.id ≤ nodeA.id then
      buildEdgesForNode cm cosDeg sqrtQ floorId maxDistSqMeters nodeA
        neighborLimit rest addedForNode
    else
      let distanceSqMeters := edgeDistSqMeters cosDeg nodeA nodeB
      if distanceSqMeters > maxDistSqMeters then
        buildEdgesForNode cm cosDeg sqrtQ floorId maxDistSqMeters nodeA
          neighborLimit rest addedForNode
      else if isPathClear cm nodeA.coords nodeB.coords floorId then
        let distance := sqrtQ distanceSqMeters
        let e1 : EdgeRec :=
          { fromId := nodeA.id, toId := nodeB.id, weight := distance, type := "walkable" }
        let e2 : EdgeRec :=
          { fromId := nodeB.id, toId := nodeA.id, weight := distance, type := "walkable" }
        let added := addedForNode + 1
        if (neighborLimit.map (fun limit => decide (limit ≤ added))).getD false then
          [e1, e2]
        else
          e1 :: e2 ::
            buildEdgesForNode cm cosDeg sqrtQ floorId maxDistSqMeters nodeA
              neighborLimit rest added
      else
        buildEdgesForNode cm cosDeg sqrtQ floorId maxDistSqMeters nodeA
          neighborLimit rest addedForNode

/-- Candidate gathering for one node `A`: spatial quadtree query when an
index is present, otherwise the linear bounding-box filter, then the
oversampled pool reduction. -/
def candidatesFor (nodes : List Node)
    (spatialQuery : Option (Rect → List Node)) (maxDistDegrees : ℚ)
    (candidatePoolLimit : Option Nat) (nodeA : Node) : List Node :=
  let lng := nodeA.coords.1
  let lat := nodeA.coords.2
  let raw :=
    match spatialQuery with
    | some q =>
      q { minX := lng - maxDistDegrees, minY := lat - maxDistDegrees
          maxX := lng + maxDistDegrees, maxY := lat + maxDistDegrees }
    | none =>
      nodes.filter (fun n =>
        |n.coords.1 - lng| ≤ maxDistDegrees && |n.coords.2 - lat| ≤ maxDistDegrees)
  match candidatePoolLimit with
  | some poolLimit =>
    if poolLimit < raw.length then selectNearestCandidates nodeA raw poolLimit
    else raw
  | none => raw

/-- Inner recursion of `buildEdgesForFloor` over the per-floor node list
(the cooperative-yield bookkeeping of the source suspends without touching
the edge list and is omitted). -/
def buildEdgesForFloorGo (cm : CollisionModel) (cosDeg sqrtQ : ℚ → ℚ)
    (nodes : List Node) (floorId : FloorId) (maxDistance : ℚ)
    (spatialQuery : Option (Rect → List Node)) (maxNeighbors : Option Nat) :
    List Node → List EdgeRec
  | [] => []
  | nodeA :: rest =>
    let maxDistDegrees := maxDistance / 111320
    let candidatePoolLimit := maxNeighbors.map (fun k => max k (k * 6))
    let candidates :=
      candidatesFor nodes spatialQuery maxDistDegrees candidatePoolLimit nodeA
    buildEdgesForNode cm cosDeg sqrtQ floorId (maxDistance * maxDistance) nodeA
      maxNeighbors candidates 0 ++
      buildEdgesForFloorGo cm cosDeg sqrtQ nodes floorId maxDistance
        spatialQuery maxNeighbors rest

/-- `EdgeBuilder.buildEdgesForFloor`. -/
def buildEdgesForFloor (cm : CollisionModel) (cosDeg sqrtQ : ℚ → ℚ)
    (nodes : List Node) (floorId : FloorId) (maxDistance : ℚ)
    (spatialQuery : Option (Rect → List Node)) (maxNeighbors : Option Nat) :
    List EdgeRec :=
  buildEdgesForFloorGo cm cosDeg sqrtQ nodes floorId maxDistance spatialQuery
    maxNeighbors nodes

/-- The opposite directed edge of an edge record. -/
def EdgeRec.mirror (e : EdgeRec) : EdgeRec :=
  { fromId := e.toId, toId := e.fromId, weight := e.weight, type := e.type }

/-! ## MinHeap (priority queue of AStar.js) -/

structure HeapItem where
  nodeId : NodeId
  priority : ℚ
deriving DecidableEq

instance : Inhabited HeapItem := ⟨{ nodeId := "", priority := 0 }⟩

instance : Inhabited Node :=
  ⟨{ id := "", coords := (0, 0), floorId := "" }⟩

def heapGetI (h : List HeapItem) (i : Nat) : HeapItem := h.getD i default

def heapSwap (h : List HeapItem) (i j : Nat) : List HeapItem :=
  (h.set i (heapGetI h j)).set j (heapGetI h i)

/-- `MinHeap.bubbleUp`; the fuel argument bounds the `while` loop (the
index strictly decreases, so `index + 1` steps always suffice). -/
def bubbleUpGo (fuel : Nat) (h : List HeapItem) (index : Nat) : List HeapItem :=
  match fuel with
  | 0 => h
  | fuel + 1 =>
    if index = 0 then h
    else
      let parentIndex := (index - 1) / 2
      if (heapGetI h index).priority ≥ (heapGetI h parentIndex).priority then h
      else bubbleUpGo fuel (heapSwap h index parentIndex) parentIndex

/-- `MinHeap.push`. -/
def heapPush (h : List HeapItem) (item : HeapItem) : List HeapItem :=
  let h := h ++ [item]
  bubbleUpGo h.length h (h.length - 1)

/-- `MinHeap.bubbleDown`; the fuel argument bounds the `while (true)` loop
(the index strictly increases below the length, so `length` steps always
suffice). -/
def bubbleDownGo (fuel : Nat) (h : List HeapItem) (index : Nat) : List HeapItem :=
  match fuel with
  | 0 => h
  | fuel + 1 =>
    let leftChild := 2 * index + 1
    let rightChild := 2 * index + 2
    let smallest :=
      if leftChild < h.length
          && decide ((heapGetI h leftChild).priority < (heapGetI h index).priority) then
        leftChild
      else index
    let smallest :=
      if rightChild < h.length
          && decide ((heapGetI h rightChild).priority < (heapGetI h smallest).priority) then
        rightChild
      else smallest
    if smallest = index then h
    else bubbleDownGo fuel (heapSwap h index smallest) smallest

/-- `MinHeap.pop`: return the root, move the last element to the root and
sift it down. -/
def heapPop (h : List HeapItem) : Option (HeapItem × List HeapItem) :=
  match h with
  | [] => none
  | [x] => some (x, [])
  | x :: _ :: _ =>
    let last := heapGetI h (h.length - 1)
    let h2 := (h.set 0 last).dropLast
    some (x, bubbleDownGo h2.length h2 0)

/-! ## AStar -/

/-- `AStar.heuristic`: geodesic distance plus a 10m penalty when the two
nodes are on different floors. -/
def heuristic (dist : Coord → Coord → ℚ) (nodeA nodeB : Node) : ℚ :=
  dist nodeA.coords nodeB.coords + (if nodeA.floorId ≠ nodeB.floorId then 10 else 0)

/-- The effective room list of a node:
`metadata.roomIds || (metadata.roomId ? [metadata.roomId] : [])`. -/
def roomIdsOf (m : Metadata) : List String :=
  m.roomIds.getD (match m.roomId with | some r => [r] | none => [])

/-- The `isRoomAllowed` closure of `AStar.findPath`: connection nodes
(elevator, stairs, door) are always allowed; otherwise a node is allowed
when it has no rooms, when no non-empty room filter is given, or when its
rooms intersect the filter. -/
def isRoomAllowedFwd (options : RouteOptions) (node : Node) : Bool :=
  if !options.disallowOtherRooms then true
  else if node.metadata.isElevator || node.metadata.isStairs
      || node.metadata.isDoor then true
  else
    let roomIds := roomIdsOf node.metadata
    if roomIds.isEmpty then true
    else
      match options.allowedRoomIds with
      | none => true
      | some allowed =>
        if allowed.isEmpty then true
        else roomIds.any (fun id => allowed.contains id)

/-- The `isRoomAllowed` closure of `AStar.findPathBidirectional`: no
special case for connection nodes, and a node with rooms is rejected when
the room filter is absent or empty. -/
def isRoomAllowedBwd (options : RouteOptions) (node : Node) : Bool :=
  if !options.disallowOtherRooms then true
  else
    let roomIds := roomIdsOf node.metadata
    if roomIds.isEmpty then true
    else
      match options.allowedRoomIds with
      | none => false
      | some allowed =>
        if allowed.isEmpty then false
        else roomIds.any (fun id => allowed.contains id)

/-- `isNodeAllowed` of `AStar.findPath` (the null-node guard lives at the
call site, where `getNode` is matched). -/
def isNodeAllowedFwd (options : RouteOptions) (node : Node) : Bool :=
  match options.nodeFilter with
  | some f => if !f node then false else isRoomAllowedFwd options node
  | none => isRoomAllowedFwd options node

/-- Search state of `AStar.findPath`. -/
structure AStarState where
  openHeap : List HeapItem
  closed : List NodeId
  gScore : List (NodeId × ℚ)
  fScore : List (NodeId × ℚ)
  cameFrom : List (NodeId × NodeId)
deriving DecidableEq

/-- `tentativeG < (gScore.get(neighborId) || Infinity)`: an absent entry is
`Infinity`; a stored `0` is falsy in JS and also becomes `Infinity`. -/
def gLtStored (tentativeG : ℚ) (stored : Option ℚ) : Bool :=
  match stored with
  | some v => if v = 0 then true else if tentativeG < v then true else false
  | none => true

/-- The body of the neighbor loop of `AStar.findPath` for a single edge:
filters, the closed-set skip, and the relaxation with push. -/
def expandEdge (g : Graph) (dist : Coord → Coord → ℚ) (options : RouteOptions)
    (endNode : Node) (currentId : NodeId) (currentNode : Node)
    (s : AStarState) (edge : Edge) : AStarState :=
  if options.accessibleOnly && !edge.accessible then s
  else if options.avoidStairs && edge.type == "stairs" then s
  else
    let neighborId := edge.target
    if s.closed.contains neighborId then s
    else
      match g.getNode neighborId with
      | none => s
      | some neighborNode =>
        if !isNodeAllowedFwd options neighborNode then s
        else
          let distance := edge.weight.getD (dist currentNode.coords neighborNode.coords)
          let tentativeG := (mapGet? s.gScore currentId).getD 0 + distance
          if gLtStored tentativeG (mapGet? s.gScore neighborId) then
            let h := heuristic dist neighborNode endNode * options.heuristicWeight
            let f := tentativeG + h
            { openHeap := heapPush s.openHeap { nodeId := neighborId, priority := f }
              closed := s.closed
              gScore := mapSet s.gScore neighborId tentativeG
              fScore := mapSet s.fScore neighborId f
              cameFrom := mapSet s.cameFrom neighborId currentId }
          else s

structure Segment where
  fromId : NodeId
  toId : NodeId
  fromCoords : Coord
  toCoords : Coord
  distance : ℚ
  floorChange : Bool
  fromFloor : FloorId
  toFloor : FloorId
deriving DecidableEq

/-- `AStar.buildSegments`. -/
def buildSegments (dist : Coord → Coord → ℚ) : List Node → List Segment
  | a :: b :: rest =>
    { fromId := a.id, toId := b.id, fromCoords := a.coords, toCoords := b.coords
      distance := dist a.coords b.coords
      floorChange := a.floorId ≠ b.floorId
      fromFloor := a.floorId, toFloor := b.floorId } :: buildSegments dist (b :: rest)
  | _ => []

structure PathResult where
  nodeIds : List NodeId
  nodes : List Node
  coords : List Coord
  floors : List FloorId
  distance : ℚ
  segments : List Segment
deriving DecidableEq

/-- The `while (cameFrom.has(current))` unshift loop of
`AStar.reconstructPath`; `cameFrom.length` steps of fuel suffice for the
acyclic maps the search produces. -/
def reconstructIds (cameFrom : List (NodeId × NodeId)) :
    Nat → NodeId → List NodeId → List NodeId
  | 0, current, acc => current :: acc
  | fuel + 1, current, acc =>
    match mapGet? cameFrom current with
    | some prev => reconstructIds cameFrom fuel prev (current :: acc)
    | none => current :: acc

/-- `AStar.reconstructPath` (missing nodes resolve to the default node;
the source would crash there, which is unreachable for ids recorded during
the search). -/
def reconstructPath (g : Graph) (dist : Coord → Coord → ℚ)
    (cameFrom : List (NodeId × NodeId)) (currentId : NodeId)
    (gScore : List (NodeId × ℚ)) : PathResult :=
  let path := reconstructIds cameFrom cameFrom.length currentId []
  let nodes := path.map (fun id => (g.getNode id).getD default)
  { nodeIds := path
    nodes := nodes
    coords := nodes.map Node.coords
    floors := nodes.map Node.floorId
    distance := (mapGet? gScore currentId).getD 0
    segments := buildSegments dist nodes }

/-- The `while (!openSet.isEmpty())` loop of `AStar.findPath`: pop, goal
test, closed-set skip of stale heap entries, then expansion of the popped
node's edges. The fuel bounds the loop; the JS loop terminates since
every node is expanded at most once. -/
def findPathAux (g : Graph) (dist : Coord → Coord → ℚ) (options : RouteOptions)
    (endNodeId : NodeId) (endNode : Node) :
    Nat → AStarState → Option PathResult
  | 0, _ => none
  | fuel + 1, s =>
    match heapPop s.openHeap with
    | none => none
    | some (current, rest) =>
      let currentId := current.nodeId
      if currentId == endNodeId then
        some (reconstructPath g dist s.cameFrom currentId s.gScore)
      else if s.closed.contains currentId then
        findPathAux g dist options endNodeId endNode fuel { s with openHeap := rest }
      else
        let currentNode := (g.getNode currentId).getD default
        let s2 := (g.getEdges currentId).foldl
          (expandEdge g dist options endNode currentId currentNode)
          { s with openHeap := rest, closed := s.closed ++ [currentId] }
        findPathAux g dist options endNodeId endNode fuel s2

/-- `AStar.findPath`. -/
def findPath (g : Graph) (dist : Coord → Coord → ℚ)
    (startNodeId endNodeId : NodeId) (options : RouteOptions) (fuel : Nat) :
    Option PathResult :=
  match g.getNode startNodeId, g.getNode endNodeId with
  | some startNode, some endNode =>
    let h := heuristic dist startNode endNode
    findPathAux g dist options endNodeId endNode fuel
      { openHeap := [{ nodeId := startNodeId, priority := h }]
        closed := []
        gScore := [(startNodeId, 0)]
        fScore := [(startNodeId, h)]
        cameFrom := [] }
  | _, _ => none

/-! ## PathfindingEngine: rooms, doors, engine state -/

/-- One entry of the per-floor room index built by `buildRoomIndex`:
`contains` is `turf.booleanPointInPolygon` against the buffered polygon
(falling back to the raw feature), with geometry failures reading as
`false`. -/
structure Room where
  geometryId : String
  floorId : FloorId
  bbox : ℚ × ℚ × ℚ × ℚ
  contains : Coord → Bool

structure RoomMeta where
  area : ℚ
  doorCount : Nat
  publicDoorCount : Nat
deriving DecidableEq

structure RouteError where
  code : String
  message : String
deriving DecidableEq

structure RouteMeta where
  startCoords : Coord
  endCoords : Coord
  startFloorId : FloorId
  endFloorId : FloorId
  startRoomId : Option String := none
  endRoomId : Option String := none
  startDoorId : Option NodeId := none
  endDoorId : Option NodeId := none
  sameRoom : Bool := false
  roomTraversalMode : Option String := none
deriving DecidableEq

/-- The route object returned by `PathfindingEngine.findRoute`. -/
structure Route where
  path : List Coord
  nodeIds : List NodeId
  distance : ℚ
  floors : List FloorId
  segments : List Segment
  startNode : Option Node := none
  endNode : Option Node := none
  meta : RouteMeta
deriving DecidableEq

/-- The engine after `initialize` (queries before initialization throw and
are out of scope here). The three `graphFindNearest…` fields are the
nearest-node queries of the `Graph` component, modelled from the spec
(expanding-radius nearest-node search; the `Graph` source file is not
among the provided sources); `astarFuel` bounds the embedded A* loop. -/
structure Engine where
  graph : Graph
  cm : CollisionModel
  dist : Coord → Coord → ℚ
  roomIndex : FloorId → List Room
  roomDoorIndex : List (String × List Node)
  roomMeta : List (String × RoomMeta)
  walkableNodesByFloor : FloorId → List Node
  pathCache : List (CacheKey × Route)
  pathCacheMaxSize : Nat := 100
  lastRouteError : Option RouteError := none
  graphFindNearestNode : Coord → FloorId → Option Node
  graphFindNearestNodesInRadius : Coord → FloorId → ℚ → Nat → List Node
  graphFindNearestNodeExpanded : Coord → FloorId → Option Node
  astarFuel : Nat

/-- `PathfindingEngine.findRoomAtPoint`: first room of the floor whose
bbox and buffered polygon contain the point. -/
def findRoomAtPoint (eng : Engine) (coords : Coord) (floorId : FloorId) :
    Option Room :=
  (eng.roomIndex floorId).find? (fun room =>
    if coords.1 < room.bbox.1 || coords.1 > room.bbox.2.2.1
        || coords.2 < room.bbox.2.1 || coords.2 > room.bbox.2.2.2 then false
    else room.contains coords)

/-- `PathfindingEngine.findNearestWalkableNode`: minimum squared degree
distance over the pre-indexed walkable nodes of the floor (first node wins
ties, strict improvement). -/
def findNearestWalkableNode (eng : Engine) (coords : Coord)
    (floorId : FloorId) : Option Node :=
  ((eng.walkableNodesByFloor floorId).foldl
    (fun acc node =>
      let dx := node.coords.1 - coords.1
      let dy := node.coords.2 - coords.2
      let distSq := dx * dx + dy * dy
      match acc with
      | none => some (node, distSq)
      | some best => if distSq < best.2 then some (node, distSq) else acc)
    none).map Prod.fst

/-- The `isPublicRoom` closure of `findRoute` (thresholds already
defaulted): public door count, total door count against
`max(2, publicRoomDoorCount)`, or area. -/
def isPublicRoomMeta (publicRoomDoorCount publicRoomArea : ℚ)
    (meta : Option RoomMeta) : Bool :=
  match meta with
  | none => false
  | some m =>
    if (m.publicDoorCount : ℚ) ≥ publicRoomDoorCount then true
    else if (m.doorCount : ℚ) ≥ max 2 publicRoomDoorCount then true
    else if m.area ≥ publicRoomArea then true
    else false

structure DoorResult where
  available : List Node
  locked : List Node
  total : Nat

/-- `PathfindingEngine.getRoomDoorCandidates`. -/
def getRoomDoorCandidates (eng : Engine) (room : Room)
    (allowLockedDoors : Bool) : DoorResult :=
  let doors := (mapGet? eng.roomDoorIndex room.geometryId).getD []
  { available := doors.filter (fun door => allowLockedDoors || !door.metadata.isLocked)
    locked := doors.filter (fun door => door.metadata.isLocked)
    total := doors.length }

/-- `PathfindingEngine.isConnectorClear`. -/
def isConnectorClear (eng : Engine) (startCoords endCoords : Coord)
    (floorId : FloorId) : Bool :=
  isPathClear eng.cm startCoords endCoords floorId

/-- JS `Set.add` on a set materialized as an insertion-ordered list. -/
def addUnique (l : List String) (x : String) : List String :=
  if l.contains x then l else l ++ [x]

/-- The `buildAllowedRoomIds` closure of `findRoute`: endpoint rooms, all
public rooms in `public` mode, and the explicitly allowed rooms. -/
def buildAllowedRoomIds (eng : Engine) (options : RouteOptions)
    (startRoom endRoom : Option Room) (mode : String)
    (publicRoomDoorCount publicRoomArea : ℚ) : List String :=
  let s : List String := []
  let s := match startRoom with | some r => addUnique s r.geometryId | none => s
  let s := match endRoom with | some r => addUnique s r.geometryId | none => s
  let s :=
    if mode == "public" then
      eng.roomMeta.foldl
        (fun acc p =>
          if isPublicRoomMeta publicRoomDoorCount publicRoomArea (some p.2) then
            addUnique acc p.1
          else acc)
        s
    else s
  match options.allowedRoomIds with
  | some values => values.foldl addUnique s
  | none => s

/-- The `nodeFilter` installed by `findRoute` into `routeOptions`: the
caller filter, then the locked-door rejection. -/
def routeNodeFilter (options : RouteOptions) : Node → Bool := fun node =>
  let userOk := match options.nodeFilter with | some f => f node | none => true
  if !userOk then false
  else if !options.allowLockedDoors && node.metadata.isDoor
      && node.metadata.isLocked then false
  else true

/-- The `pushUnique` closure of `findRoute`: append nodes whose id is not
yet present. -/
def pushUnique (list : List Node) (nodes : List Node) : List Node :=
  nodes.foldl
    (fun acc node =>
      if acc.any (fun existing => existing.id == node.id) then acc
      else acc ++ [node])
    list

/-! ## PathfindingEngine.findRoute -/

/-- The trivial two-point route emitted when both endpoints are in the
same room with a clear segment between them. -/
def sameRoomRoute (eng : Engine) (startCoords endCoords : Coord)
    (startFloorId endFloorId : FloorId) (startRoomId endRoomId : String) :
    Route :=
  let distance := eng.dist startCoords endCoords
  { path := [startCoords, endCoords]
    nodeIds := []
    distance := distance
    floors := [startFloorId, endFloorId]
    segments := [{ fromId := "start", toId := "end"
                   fromCoords := startCoords, toCoords := endCoords
                   distance := distance, floorChange := false
                   fromFloor := startFloorId, toFloor := endFloorId }]
    startNode := none
    endNode := none
    meta := { startCoords := startCoords, endCoords := endCoords
              startFloorId := startFloorId, endFloorId := endFloorId
              startRoomId := some startRoomId, endRoomId := some endRoomId
              sameRoom := true } }

structure BestPath where
  best : PathResult
  bestStart : Node
  bestEnd : Node
  bestDistance : ℚ

/-- The `findBestPath` closure of `findRoute`: A* over every candidate
pair, keeping the minimum of indoor distance plus the two connector
distances (strict improvement, `Infinity` start). -/
def findBestPath (eng : Engine) (startCoords endCoords : Coord)
    (startConnectable endConnectable : List Node)
    (optionsForPath : RouteOptions) : Option BestPath :=
  startConnectable.foldl
    (fun acc startCandidate =>
      endConnectable.foldl
        (fun acc endCandidate =>
          match findPath eng.graph eng.dist startCandidate.id endCandidate.id
              optionsForPath eng.astarFuel with
          | none => acc
          | some path =>
            let startConnectorDistance := eng.dist startCoords startCandidate.coords
            let endConnectorDistance := eng.dist endCoords endCandidate.coords
            let totalDistance :=
              path.distance + startConnectorDistance + endConnectorDistance
            let better :=
              match acc with
              | none => true
              | some b => if totalDistance < b.bestDistance then true else false
            if better then
              some { best := path, bestStart := startCandidate
                     bestEnd := endCandidate, bestDistance := totalDistance }
            else acc)
        acc)
    none

/-- The three kinds of return of `findRoute` past the cache check: the
same-room early route (returned without being cached), a route from the
main path (cached when caching is on), or a failure recorded in the error
slot. -/
inductive RouteOutcome where
  | early (route : Route)
  | success (route : Route)
  | failure (err : RouteError)

/-- `findRoute` from the nearest-node anchoring on (`STEP 2`–`STEP 6` of
the source): door requirements, candidate lists, strict then layered
relaxed clearance fallbacks, the A* sweep, and the constraint-free retry. -/
def findRouteAnchored (eng : Engine) (startCoords endCoords : Coord)
    (startFloorId endFloorId : FloorId)
    (startRoom endRoom : Option Room) (allowLockedDoors : Bool)
    (roomTraversalMode : Option String)
    (startRoomIsPublic endRoomIsPublic : Bool)
    (routeOptions : RouteOptions) (applyRoomConstraints : Bool) :
    RouteOutcome :=
  let startNode :=
    match findNearestWalkableNode eng startCoords startFloorId with
    | some n => some n
    | none => eng.graphFindNearestNode startCoords startFloorId
  let endNode :=
    match findNearestWalkableNode eng endCoords endFloorId with
    | some n => some n
    | none => eng.graphFindNearestNode endCoords endFloorId
  let useDoorsForStart := startRoom.isSome && !startRoomIsPublic
  let useDoorsForEnd := endRoom.isSome && !endRoomIsPublic
  let startDoorResult :=
    if useDoorsForStart then
      startRoom.map (fun r => getRoomDoorCandidates eng r allowLockedDoors)
    else none
  let endDoorResult :=
    if useDoorsForEnd then
      endRoom.map (fun r => getRoomDoorCandidates eng r allowLockedDoors)
    else none
  if useDoorsForStart
      && (startDoorResult.map (fun dr => dr.available.isEmpty)).getD false then
    .failure
      { code := "no-door"
        message :=
          if (startDoorResult.map (fun dr => decide (0 < dr.total))).getD false then
            "All doors are locked for the start room."
          else "No doors found for the start room." }
  else if useDoorsForEnd
      && (endDoorResult.map (fun dr => dr.available.isEmpty)).getD false then
    .failure
      { code := "no-door"
        message :=
          if (endDoorResult.map (fun dr => decide (0 < dr.total))).getD false then
            "All doors are locked for the destination room."
          else "No doors found for the destination room." }
  else
    let startCandidates := pushUnique [] startNode.toList
    let startCandidates :=
      match startDoorResult with
      | some dr =>
        if !dr.available.isEmpty then pushUnique startCandidates dr.available
        else startCandidates
      | none => startCandidates
    let endCandidates := pushUnique [] endNode.toList
    let endCandidates :=
      match endDoorResult with
      | some dr =>
        if !dr.available.isEmpty then pushUnique endCandidates dr.available
        else endCandidates
      | none => endCandidates
    let startConnectable := startCandidates.filter
      (fun candidate => isConnectorClear eng startCoords candidate.coords startFloorId)
    let endConnectable := endCandidates.filter
      (fun candidate => isConnectorClear eng endCoords candidate.coords endFloorId)
    let startConnectable :=
      if startConnectable.isEmpty && !startCandidates.isEmpty then
        startCandidates.filter (fun candidate =>
          isPathClearRelaxed eng.cm startCoords candidate.coords startFloorId)
      else startConnectable
    let endConnectable :=
      if endConnectable.isEmpty && !endCandidates.isEmpty then
        endCandidates.filter (fun candidate =>
          isPathClearRelaxed eng.cm endCoords candidate.coords endFloorId)
      else endConnectable
    let startConnectable :=
      if startConnectable.isEmpty && startRoom.isSome && !startCandidates.isEmpty then
        startCandidates
      else startConnectable
    let endConnectable :=
      if endConnectable.isEmpty && endRoom.isSome && !endCandidates.isEmpty then
        endCandidates
      else endConnectable
    let startConnectable :=
      if startConnectable.isEmpty then
        if startRoom.isNone then
          let nearbyNodes :=
            eng.graphFindNearestNodesInRadius startCoords startFloorId (1/500) 10
          let filtered := nearbyNodes.filter (fun node =>
            isPathClearRelaxed eng.cm startCoords node.coords startFloorId)
          if filtered.isEmpty then
            match eng.graphFindNearestNodeExpanded startCoords startFloorId with
            | some n => [n]
            | none => []
          else filtered
        else startConnectable
      else startConnectable
    let endConnectable :=
      if endConnectable.isEmpty then
        if endRoom.isNone then
          let nearbyNodes :=
            eng.graphFindNearestNodesInRadius endCoords endFloorId (1/500) 10
          let filtered := nearbyNodes.filter (fun node =>
            isPathClearRelaxed eng.cm endCoords node.coords endFloorId)
          if filtered.isEmpty then
            match eng.graphFindNearestNodeExpanded endCoords endFloorId with
            | some n => [n]
            | none => []
          else filtered
        else endConnectable
      else endConnectable
    if startConnectable.isEmpty then
      .failure
        { code := "blocked"
          message := "Cannot find a path from this location. Try clicking closer to a walkable area." }
    else if endConnectable.isEmpty then
      .failure
        { code := "blocked"
          message := "Cannot find a path to this destination. Try clicking closer to a walkable area." }
    else
      let attempt :=
        findBestPath eng startCoords endCoords startConnectable endConnectable
          routeOptions
      let retried :=
        match attempt with
        | some a => some (a, applyRoomConstraints)
        | none =>
          if applyRoomConstraints then
            match
              findBestPath eng startCoords endCoords startConnectable endConnectable
                { routeOptions with disallowOtherRooms := false, allowedRoomIds := none }
            with
            | some a => some (a, false)
            | none => none
          else none
      match retried with
      | none =>
        .failure { code := "no-path", message := "No path available from this location." }
      | some (a, constrained) =>
        let effectiveTraversalMode :=
          if constrained then roomTraversalMode.getD "public" else "all"
        .success
          { path := a.best.coords
            nodeIds := a.best.nodeIds
            distance := a.bestDistance
            floors := a.best.floors
            segments := a.best.segments
            startNode := some a.bestStart
            endNode := some a.bestEnd
            meta := { startCoords := startCoords, endCoords := endCoords
                      startFloorId := startFloorId, endFloorId := endFloorId
                      startRoomId := startRoom.map Room.geometryId
                      endRoomId := endRoom.map Room.geometryId
                      startDoorId :=
                        if a.bestStart.metadata.isDoor then some a.bestStart.id else none
                      endDoorId :=
                        if a.bestEnd.metadata.isDoor then some a.bestEnd.id else none
                      roomTraversalMode := some effectiveTraversalMode } }

/-- `findRoute` past the cache check (the error slot was just cleared):
option defaulting, endpoint room detection, the same-room shortcut, and
otherwise the anchored search. -/
def findRouteMiss (eng : Engine) (startCoords endCoords : Coord)
    (startFloorId endFloorId : FloorId) (options : RouteOptions) :
    RouteOutcome :=
  let snapToDoors := options.snapToDoors
  let allowLockedDoors := options.allowLockedDoors
  let roomTraversalMode := options.roomTraversalMode.getD "public"
  let publicRoomDoorCount := options.publicRoomDoorCount.getD 2
  let publicRoomArea := options.publicRoomArea.getD 80
  let startRoom := if snapToDoors then findRoomAtPoint eng startCoords startFloorId else none
  let endRoom := if snapToDoors then findRoomAtPoint eng endCoords endFloorId else none
  let sameRoom :=
    match startRoom, endRoom with
    | some a, some b => a.geometryId == b.geometryId
    | _, _ => false
  let startRoomMeta := startRoom.bind (fun r => mapGet? eng.roomMeta r.geometryId)
  let endRoomMeta := endRoom.bind (fun r => mapGet? eng.roomMeta r.geometryId)
  let startRoomIsPublic :=
    startRoom.isSome && isPublicRoomMeta publicRoomDoorCount publicRoomArea startRoomMeta
  let endRoomIsPublic :=
    endRoom.isSome && isPublicRoomMeta publicRoomDoorCount publicRoomArea endRoomMeta
  let useRoomConstraints := roomTraversalMode ≠ "all"
  let allowedRoomIds :=
    if useRoomConstraints then
      some (buildAllowedRoomIds eng options startRoom endRoom roomTraversalMode
        publicRoomDoorCount publicRoomArea)
    else none
  let hasAllowedRooms := (allowedRoomIds.map (fun l => !l.isEmpty)).getD false
  let applyRoomConstraints := useRoomConstraints && hasAllowedRooms
  let routeOptions :=
    { options with
      disallowOtherRooms := applyRoomConstraints
      allowedRoomIds := if applyRoomConstraints then allowedRoomIds else none
      nodeFilter := some (routeNodeFilter options) }
  if sameRoom then
    if isPathClear eng.cm startCoords endCoords startFloorId then
      .early
        (sameRoomRoute eng startCoords endCoords startFloorId endFloorId
          ((startRoom.map Room.geometryId).getD "")
          ((endRoom.map Room.geometryId).getD ""))
    else
      .failure { code := "no-path", message := "No clear path inside this room." }
  else
    findRouteAnchored eng startCoords endCoords startFloorId endFloorId
      startRoom endRoom allowLockedDoors options.roomTraversalMode
      startRoomIsPublic endRoomIsPublic routeOptions applyRoomConstraints

/-- `PathCache.get`: on a hit, move the entry to the most-recent end. -/
def pathCacheGet (cache : List (CacheKey × Route)) (key : CacheKey) :
    Option Route × List (CacheKey × Route) :=
  match mapGet? cache key with
  | some value => (some value, cache.filter (fun p => !(p.1 == key)) ++ [(key, value)])
  | none => (none, cache)

/-- `PathCache.set`: evict the oldest entry at capacity, then insert. -/
def pathCacheSet (cache : List (CacheKey × Route)) (maxSize : Nat)
    (key : CacheKey) (route : Route) : List (CacheKey × Route) :=
  let cache := if maxSize ≤ cache.length then cache.tail else cache
  mapSet cache key route

/-- `PathfindingEngine.findRoute`: cache probe, then the query protocol;
returns the route (or `null`) together with the engine state afterwards
(cache and last-route-error slot). -/
def findRoute (eng : Engine) (startCoords endCoords : Coord)
    (startFloorId endFloorId : FloorId) (options : RouteOptions) :
    Option Route × Engine :=
  let cacheProbe :=
    if options.useCache then
      pathCacheGet eng.pathCache
        (generateKey startCoords endCoords startFloorId endFloorId options)
    else (none, eng.pathCache)
  match cacheProbe with
  | (some cached, cache2) => (some cached, { eng with pathCache := cache2 })
  | (none, _) =>
    match findRouteMiss eng startCoords endCoords startFloorId endFloorId options with
    | .early route => (some route, { eng with lastRouteError := none })
    | .success route =>
      let cache2 :=
        if options.useCache then
          pathCacheSet eng.pathCache eng.pathCacheMaxSize
            (generateKey startCoords endCoords startFloorId endFloorId options) route
        else eng.pathCache
      (some route, { eng with pathCache := cache2, lastRouteError := none })
    | .failure err => (none, { eng with lastRouteError := some err })

/-- `PathfindingEngine.getLastRouteError`. -/
def getLastRouteError (eng : Engine) : Option RouteError :=
  eng.lastRouteError

/-! ## Shared concrete instances for witnesses and counterexamples -/

/-- A collision model with no obstacles anywhere. -/
def cmClear : CollisionModel :=
  { pointInObstacle := fun _ _ => false
    lineIntersectsObstacle := fun _ _ _ => false }

/-- A concrete stand-in for `turf.distance`: taxicab length of the
coordinate difference (coordinates of the concrete instances are laid out
in local meters along the axes, where this matches the geodesic length). -/
def distTaxi : Coord → Coord → ℚ := fun a b =>
  |b.1 - a.1| + |b.2 - a.2|

/-! ## Claim C5: relaxed clearance thresholds -/

/-- C5. `isPathClearRelaxed` returns true unconditionally below 2 meters
(squared approximate length below 4), only the negated line-intersection
test from 2 to 10 meters, and exactly `isPathClear` from 10 meters up. -/
theorem c5_relaxed_thresholds (cm : CollisionModel) (a b : Coord)
    (f : FloorId) :
    (relaxedDistMetersSq a b < 4 → isPathClearRelaxed cm a b f = true) ∧
    (4 ≤ relaxedDistMetersSq a b → relaxedDistMetersSq a b < 100 →
      isPathClearRelaxed cm a b f = !(cm.lineIntersectsObstacle a b f)) ∧
    (100 ≤ relaxedDistMetersSq a b →
      isPathClearRelaxed cm a b f = isPathClear cm a b f) := by
  refine ⟨fun h => ?_, fun h1 h2 => ?_, fun h => ?_⟩
  · rw [isPathClearRelaxed, if_pos (by norm_num; linarith)]
  · rw [isPathClearRelaxed, if_neg (by norm_num; linarith),
      if_pos (by norm_num; linarith)]
  · rw [isPathClearRelaxed, if_neg (by norm_num; linarith),
      if_neg (by norm_num; linarith)]

/-- Witness for C5 at concrete segments of ≈0m, ≈5.6m and ≈111m. -/
theorem c5_relaxed_thresholds_witness :
    isPathClearRelaxed cmClear (0, 0) (0, 0) "f0" = true ∧
    isPathClearRelaxed cmClear (0, 0) (1/20000, 0) "f0" =
      !(cmClear.lineIntersectsObstacle (0, 0) (1/20000, 0) "f0") ∧
    isPathClearRelaxed cmClear (0, 0) (1/1000, 0) "f0" =
      isPathClear cmClear (0, 0) (1/1000, 0) "f0" := by
  refine ⟨(c5_relaxed_thresholds cmClear (0, 0) (0, 0) "f0").1 (by
      norm_num [relaxedDistMetersSq]),
    (c5_relaxed_thresholds cmClear (0, 0) (1/20000, 0) "f0").2.1 (by
      norm_num [relaxedDistMetersSq]) (by norm_num [relaxedDistMetersSq]),
    (c5_relaxed_thresholds cmClear (0, 0) (1/1000, 0) "f0").2.2 (by
      norm_num [relaxedDistMetersSq])⟩

/-! ## Claim C8: path-cache key precision -/

/-- Rounding a degree coordinate to a 1-meter grid (1° of latitude ≈
111320 m), as the claim describes the key; for comparison with the
1e-4-degree grid the code actually uses. -/
def roundCoordToMeter (c : ℚ) : ℤ := roundJS (c * 111320)

/-- A minimal route value used to populate a concrete cache. -/
def sampleRoute : Route :=
  { path := [((0 : ℚ), (0 : ℚ))]
    nodeIds := []
    distance := 0
    floors := ["f0"]
    segments := []
    meta := { startCoords := (0, 0), endCoords := (0, 0)
              startFloorId := "f0", endFloorId := "f0" } }

/-- Counterexample to C8: the start longitudes `0.0000499` and `0.0000501`
agree after rounding to 1-meter precision (both round to meter 6), the
listed options agree (defaults), yet `generateKey` differs — the key is
built on a 1e-4-degree grid (≈ 11.1 m), not a 1-meter grid — so the second
query misses a cache holding the first. -/
theorem c8_counterexample :
    roundCoordToMeter (499/10000000) = roundCoordToMeter (501/10000000) ∧
    generateKey (499/10000000, 0) (0, 1) "f0" "f0" {} ≠
      generateKey (501/10000000, 0) (0, 1) "f0" "f0" {} ∧
    (pathCacheGet
        [(generateKey (499/10000000, 0) (0, 1) "f0" "f0" {}, sampleRoute)]
        (generateKey (501/10000000, 0) (0, 1) "f0" "f0" {})).1 = none := by
  have hne : generateKey (499/10000000, 0) (0, 1) "f0" "f0" {} ≠
      generateKey (501/10000000, 0) (0, 1) "f0" "f0" {} := by
    intro h
    have := congrArg CacheKey.sLng h
    norm_num [generateKey, roundCoord, roundJS] at this
  have hbeq : (generateKey (499/10000000, 0) (0, 1) "f0" "f0" {} ==
      generateKey (501/10000000, 0) (0, 1) "f0" "f0" {}) = false := by
    simpa [beq_iff_eq] using hne
  refine ⟨by norm_num [roundCoordToMeter, roundJS], hne, ?_⟩
  simp [pathCacheGet, mapGet?, List.find?, hbeq]

/-- C8 as amended: the key is built from the start and end coordinates
rounded to the 1e-4-degree grid (`Math.round(c*10000)/10000`, ≈ 11.1 m of
latitude — the source comment says "~1 meter" but the grid is coarser),
the two floor ids, `accessibleOnly`, the room-traversal mode (with its
`disallowOtherRooms` fallback), `publicRoomDoorCount` and
`publicRoomArea`; two queries agreeing on all of those hit the same cache
entry. -/
theorem c8_amended (s1 e1 s2 e2 : Coord) (sf ef : FloorId)
    (o1 o2 : RouteOptions)
    (h1 : roundCoord s1.1 = roundCoord s2.1)
    (h2 : roundCoord s1.2 = roundCoord s2.2)
    (h3 : roundCoord e1.1 = roundCoord e2.1)
    (h4 : roundCoord e1.2 = roundCoord e2.2)
    (hacc : o1.accessibleOnly = o2.accessibleOnly)
    (hmode : o1.roomTraversalMode = o2.roomTraversalMode)
    (hdis : o1.disallowOtherRooms = o2.disallowOtherRooms)
    (hdc : o1.publicRoomDoorCount = o2.publicRoomDoorCount)
    (har : o1.publicRoomArea = o2.publicRoomArea) :
    generateKey s1 e1 sf ef o1 = generateKey s2 e2 sf ef o2 ∧
    ∀ cache : List (CacheKey × Route),
      (pathCacheGet cache (generateKey s1 e1 sf ef o1)).1 =
        (pathCacheGet cache (generateKey s2 e2 sf ef o2)).1 := by
  have hk : generateKey s1 e1 sf ef o1 = generateKey s2 e2 sf ef o2 := by
    simp only [generateKey, h1, h2, h3, h4, hacc, hmode, hdis, hdc, har]
  exact ⟨hk, fun cache => by rw [hk]⟩

/-- Witness for the amended C8: two start points ≈ 0.2 m apart on the same
1e-4-degree grid cell share the key and hit the same (singleton) cache. -/
theorem c8_amended_witness :
    generateKey (1/10000000, 0) (2/10000000, 0) "f0" "f0" {} =
      generateKey (0, 0) (2/10000000, 0) "f0" "f0" {} ∧
    ∀ cache : List (CacheKey × Route),
      (pathCacheGet cache (generateKey (1/10000000, 0) (2/10000000, 0) "f0" "f0" {})).1 =
        (pathCacheGet cache (generateKey (0, 0) (2/10000000, 0) "f0" "f0" {})).1 :=
  c8_amended (1/10000000, 0) (2/10000000, 0) (0, 0) (2/10000000, 0) "f0" "f0" {} {}
    (by norm_num [roundCoord, roundJS]) rfl rfl rfl rfl rfl rfl rfl rfl

/-! ## Claim C3: closed-set handling in AStar.findPath -/

/-- An options record exercising re-reach of a closed node (an inflated
heuristic makes weighted A* settle nodes with non-final g). -/
def optsWeighted : RouteOptions := { heuristicWeight := 3 }

/-- The mid-search state in which node `b` was already popped (closed)
with `g(b) = 5`, while `c` (with `g(c) = 1`) is being expanded. -/
def stateClosedB : AStarState :=
  { openHeap := []
    closed := ["a", "b"]
    gScore := [("a", 1), ("b", 5), ("c", 1)]
    fScore := [("a", 1), ("b", 5), ("c", 7)]
    cameFrom := [("b", "a"), ("c", "a")] }

def edgeCB : Edge := { target := "b", weight := some 1 }

def nodeB3 : Node := { id := "b", coords := (0, 0), floorId := "f0" }

def nodeC3 : Node := { id := "c", coords := (0, 2), floorId := "f0" }

def nodeD3 : Node := { id := "d", coords := (0, 0), floorId := "f0" }

def graphC3 : Graph :=
  { nodes := [{ id := "a", coords := (0, 3), floorId := "f0" }, nodeB3, nodeC3, nodeD3]
    edgesOut := fun id =>
      if id = "a" then [{ target := "b", weight := some 5 }, { target := "c", weight := some 1 }]
      else if id = "c" then [edgeCB]
      else if id = "b" then [{ target := "d", weight := some 5 }]
      else [] }

/-- Counterexample to C3: expanding the edge `c → b` reaches the closed
node `b` with tentative g `1 + 1 = 2 < 5 = g(b)`, yet the expansion step
of `AStar.findPath` leaves the search state completely unchanged — `g(b)`
is not updated and `b` is not re-pushed; the `closedSet.has(neighborId)`
guard skips the edge. -/
theorem c3_counterexample :
    gLtStored ((mapGet? stateClosedB.gScore "c").getD 0 + 1)
      (mapGet? stateClosedB.gScore "b") = true ∧
    stateClosedB.closed.contains "b" = true ∧
    expandEdge graphC3 distTaxi optsWeighted nodeD3 "c" nodeC3 stateClosedB edgeCB
      = stateClosedB ∧
    ¬ mapGet? (expandEdge graphC3 distTaxi optsWeighted nodeD3 "c" nodeC3
        stateClosedB edgeCB).gScore "b" = some 2 := by
  have hc : mapGet? stateClosedB.gScore "c" = some 1 := by decide
  have hb : mapGet? stateClosedB.gScore "b" = some 5 := by decide
  have hskip : expandEdge graphC3 distTaxi optsWeighted nodeD3 "c" nodeC3
      stateClosedB edgeCB = stateClosedB := by decide
  refine ⟨?_, by decide, hskip, ?_⟩
  · rw [hc, hb]
    norm_num [gLtStored]
  · rw [hskip, hb]
    intro h
    have : (5 : ℚ) = 2 := by injection h
    norm_num at this

/-- C3 as amended: a neighbor already in the closed set is never updated
or re-pushed — the expansion step returns the state unchanged even when
the tentative g is smaller — and the only lazy deletion is that a popped
heap entry whose node is already closed is discarded without expansion. -/
theorem c3_amended (g : Graph) (dist : Coord → Coord → ℚ)
    (options : RouteOptions) (endNodeId : NodeId) (endNode : Node)
    (currentId : NodeId) (currentNode : Node) (s : AStarState) (e : Edge)
    (fuel : Nat) (item : HeapItem) (rest : List HeapItem)
    (hclosed : s.closed.contains e.target = true)
    (hpop : heapPop s.openHeap = some (item, rest))
    (hgoal : (item.nodeId == endNodeId) = false)
    (hstale : s.closed.contains item.nodeId = true) :
    expandEdge g dist options endNode currentId currentNode s e = s ∧
    findPathAux g dist options endNodeId endNode (fuel + 1) s =
      findPathAux g dist options endNodeId endNode fuel { s with openHeap := rest } := by
  have hmem : e.target ∈ s.closed := by simpa using hclosed
  have hmem2 : item.nodeId ∈ s.closed := by simpa using hstale
  constructor
  · rw [expandEdge]
    split
    · rfl
    · split
      · rfl
      · simp [hmem]
  · rw [findPathAux, hpop]
    simp [hgoal, hmem2]

/-- Witness for the amended C3 at the concrete mid-search state (with a
stale heap entry for the already-closed `b`). -/
theorem c3_amended_witness :
    expandEdge graphC3 distTaxi optsWeighted nodeD3 "c" nodeC3
        { stateClosedB with openHeap := [{ nodeId := "b", priority := 5 }] } edgeCB
      = { stateClosedB with openHeap := [{ nodeId := "b", priority := 5 }] } ∧
    findPathAux graphC3 distTaxi optsWeighted "d" nodeD3 1
        { stateClosedB with openHeap := [{ nodeId := "b", priority := 5 }] } =
      findPathAux graphC3 distTaxi optsWeighted "d" nodeD3 0
        { stateClosedB with openHeap := [] } :=
  c3_amended graphC3 distTaxi optsWeighted "d" nodeD3 "c" nodeC3
    { stateClosedB with openHeap := [{ nodeId := "b", priority := 5 }] } edgeCB 0
    { nodeId := "b", priority := 5 } []
    (by decide) (by rfl) (by decide) (by decide)

/-! ## Claim C4: room-constraint rule of the two search variants -/

def opts4 : RouteOptions :=
  { disallowOtherRooms := true, allowedRoomIds := some ["q"] }

/-- A door node assigned to room `r`. -/
def doorNodeR : Node :=
  { id := "door_1", coords := (0, 0), floorId := "f0", type := "door"
    metadata := { isDoor := true, isPublic := true, roomIds := some ["r"] } }

/-- Counterexample to C4: with `disallow_other_rooms` and non-empty
`allowed_room_ids = ["q"]`, a door node lying in room `r` is always
traversable for `findPath` but rejected by `findPathBidirectional` — the
bidirectional variant has no door/stairs/elevator exemption, so the rule
is not the same for both variants. -/
theorem c4_counterexample :
    isRoomAllowedFwd opts4 doorNodeR = true ∧
    isRoomAllowedBwd opts4 doorNodeR = false ∧
    ¬ isRoomAllowedFwd opts4 doorNodeR = isRoomAllowedBwd opts4 doorNodeR := by
  refine ⟨by decide, by decide, by decide⟩

/-- C4 as amended: with `disallow_other_rooms` set and a non-empty
`allowed_room_ids`, `findPath` applies the claimed rule — door, stairs and
elevator nodes always pass, any other node passes iff its rooms are empty
or intersect the allowed set — while `findPathBidirectional` applies the
room test to every node including doors, stairs and elevators (no
exemption), so the two variants differ exactly on connection nodes whose
rooms do not intersect the allowed set. -/
theorem c4_amended (options : RouteOptions) (node : Node)
    (allowed : List String)
    (hdis : options.disallowOtherRooms = true)
    (hallow : options.allowedRoomIds = some allowed)
    (hne : allowed ≠ []) :
    isRoomAllowedFwd options node =
      (node.metadata.isElevator || node.metadata.isStairs || node.metadata.isDoor
        || (roomIdsOf node.metadata).isEmpty
        || (roomIdsOf node.metadata).any (fun id => allowed.contains id)) ∧
    isRoomAllowedBwd options node =
      ((roomIdsOf node.metadata).isEmpty
        || (roomIdsOf node.metadata).any (fun id => allowed.contains id)) := by
  have hL : allowed.isEmpty = false := by
    cases allowed with
    | nil => exact absurd rfl hne
    | cons a l => rfl
  constructor
  · cases he : node.metadata.isElevator with
    | true => simp [isRoomAllowedFwd, hdis, he]
    | false =>
      cases hs : node.metadata.isStairs with
      | true => simp [isRoomAllowedFwd, hdis, he, hs]
      | false =>
        cases hd : node.metadata.isDoor with
        | true => simp [isRoomAllowedFwd, hdis, he, hs, hd]
        | false =>
          cases hro : (roomIdsOf node.metadata).isEmpty with
          | true => simp [isRoomAllowedFwd, hdis, he, hs, hd, hro]
          | false => simp [isRoomAllowedFwd, hdis, hallow, he, hs, hd, hro, hL]
  · cases hro : (roomIdsOf node.metadata).isEmpty with
    | true => simp [isRoomAllowedBwd, hdis, hro]
    | false => simp [isRoomAllowedBwd, hdis, hallow, hro, hL]

/-- Witness for the amended C4 at the concrete door node and filter. -/
theorem c4_amended_witness :
    isRoomAllowedFwd opts4 doorNodeR =
      (doorNodeR.metadata.isElevator || doorNodeR.metadata.isStairs
        || doorNodeR.metadata.isDoor
        || (roomIdsOf doorNodeR.metadata).isEmpty
        || (roomIdsOf doorNodeR.metadata).any (fun id => ["q"].contains id)) ∧
    isRoomAllowedBwd opts4 doorNodeR =
      ((roomIdsOf doorNodeR.metadata).isEmpty
        || (roomIdsOf doorNodeR.metadata).any (fun id => ["q"].contains id)) :=
  c4_amended opts4 doorNodeR ["q"] rfl rfl (by decide)

/-! ## Claim C1: visibility edges of EdgeBuilder.buildEdgesForFloor -/

theorem selectStep_subset (nodeA : Node) (k : Nat) (P : Node → Prop)
    (s : SelState) (c : Node) (hs : ∀ p ∈ s.best, P p.1) (hc : P c) :
    ∀ p ∈ (selectStep nodeA k s c).best, P p.1 := by
  intro p hp
  rw [selectStep] at hp
  dsimp only at hp
  split at hp
  · exact hs p hp
  · split at hp
    · split at hp
      · rcases List.mem_append.mp hp with h | h
        · exact hs p h
        · rcases List.mem_singleton.mp h with rfl
          exact hc
      · rcases List.mem_append.mp hp with h | h
        · exact hs p h
        · rcases List.mem_singleton.mp h with rfl
          exact hc
    · split at hp
      · exact hs p hp
      · rcases List.mem_or_eq_of_mem_set hp with h | h
        · exact hs p h
        · rcases h with rfl
          exact hc

theorem selectFold_subset (nodeA : Node) (k : Nat) (P : Node → Prop) :
    ∀ (cs : List Node) (s : SelState), (∀ c ∈ cs, P c) → (∀ p ∈ s.best, P p.1) →
      ∀ p ∈ (cs.foldl (selectStep nodeA k) s).best, P p.1 := by
  intro cs
  induction cs with
  | nil => intro s _ hs; simpa using hs
  | cons c rest ih =>
    intro s hcs hs
    simp only [List.foldl_cons]
    exact ih _ (fun x hx => hcs x (List.mem_cons_of_mem _ hx))
      (selectStep_subset nodeA k P s c hs (hcs c (List.mem_cons_self _ _)))

theorem selectNearestCandidates_subset (nodeA : Node) (cs : List Node)
    (k : Nat) : ∀ x ∈ selectNearestCandidates nodeA cs k, x ∈ cs := by
  intro x hx
  rw [selectNearestCandidates] at hx
  rcases List.mem_map.mp hx with ⟨p, hp, rfl⟩
  exact selectFold_subset nodeA k (· ∈ cs) cs _ (fun c h => h) (by simp) p
    (List.mem_mergeSort.mp hp)

theorem candidatesFor_subset (nodes : List Node)
    (spatialQuery : Option (Rect → List Node)) (maxDistDegrees : ℚ)
    (poolLimit : Option Nat) (nodeA : Node)
    (hquery : ∀ q, spatialQuery = some q → ∀ r, ∀ n ∈ q r, n ∈ nodes) :
    ∀ x ∈ candidatesFor nodes spatialQuery maxDistDegrees poolLimit nodeA,
      x ∈ nodes := by
  intro x hx
  cases spatialQuery with
  | none =>
    cases poolLimit with
    | none =>
      simp only [candidatesFor] at hx
      exact List.mem_of_mem_filter hx
    | some limit =>
      simp only [candidatesFor] at hx
      split at hx
      · exact List.mem_of_mem_filter (selectNearestCandidates_subset _ _ _ x hx)
      · exact List.mem_of_mem_filter hx
  | some q =>
    cases poolLimit with
    | none =>
      simp only [candidatesFor] at hx
      exact hquery q rfl _ x hx
    | some limit =>
      simp only [candidatesFor] at hx
      split at hx
      · exact hquery q rfl _ x (selectNearestCandidates_subset _ _ _ x hx)
      · exact hquery q rfl _ x hx

theorem buildEdgesForNode_spec (cm : CollisionModel) (cosDeg sqrtQ : ℚ → ℚ)
    (floorId : FloorId) (maxDistSq : ℚ) (nodeA : Node)
    (neighborLimit : Option Nat) :
    ∀ (cands : List Node) (added : Nat),
      ∀ e ∈ buildEdgesForNode cm cosDeg sqrtQ floorId maxDistSq nodeA
          neighborLimit cands added,
        ∃ B ∈ cands, nodeA.id < B.id ∧
          edgeDistSqMeters cosDeg nodeA B ≤ maxDistSq ∧
          isPathClear cm nodeA.coords B.coords floorId = true ∧
          e.weight = sqrtQ (edgeDistSqMeters cosDeg nodeA B) ∧
          e.type = "walkable" ∧
          ((e.fromId = nodeA.id ∧ e.toId = B.id) ∨
            (e.fromId = B.id ∧ e.toId = nodeA.id)) ∧
          e.mirror ∈ buildEdgesForNode cm cosDeg sqrtQ floorId maxDistSq nodeA
            neighborLimit cands added := by
  intro cands
  induction cands with
  | nil => intro added e he; simp [buildEdgesForNode] at he
  | cons nodeB rest ih =>
    intro added e he
    rw [buildEdgesForNode] at he
    by_cases hle : nodeB.id ≤ nodeA.id
    · rw [if_pos hle] at he
      rcases ih added e he with ⟨B, hB, hrest⟩
      refine ⟨B, List.mem_cons_of_mem _ hB, ?_⟩
      rw [buildEdgesForNode, if_pos hle]
      exact hrest
    · rw [if_neg hle] at he
      by_cases hfar : edgeDistSqMeters cosDeg nodeA nodeB > maxDistSq
      · rw [if_pos hfar] at he
        rcases ih added e he with ⟨B, hB, hrest⟩
        refine ⟨B, List.mem_cons_of_mem _ hB, ?_⟩
        rw [buildEdgesForNode, if_neg hle, if_pos hfar]
        exact hrest
      · rw [if_neg hfar] at he
        by_cases hclear : isPathClear cm nodeA.coords nodeB.coords floorId = true
        · rw [if_pos hclear] at he
          have hlt : nodeA.id < nodeB.id := lt_of_not_le hle
          have hnear : edgeDistSqMeters cosDeg nodeA nodeB ≤ maxDistSq :=
            le_of_not_lt hfar
          by_cases hbreak :
              ((neighborLimit.map (fun limit => decide (limit ≤ added + 1))).getD
                false) = true
          · rw [if_pos hbreak] at he
            rcases List.mem_cons.mp he with rfl | he
            · refine ⟨nodeB, List.mem_cons_self _ _, hlt, hnear, hclear, rfl, rfl,
                Or.inl ⟨rfl, rfl⟩, ?_⟩
              rw [buildEdgesForNode, if_neg hle, if_neg hfar, if_pos hclear,
                if_pos hbreak]
              simp [EdgeRec.mirror]
            · rcases List.mem_cons.mp he with rfl | he
              · refine ⟨nodeB, List.mem_cons_self _ _, hlt, hnear, hclear, rfl, rfl,
                  Or.inr ⟨rfl, rfl⟩, ?_⟩
                rw [buildEdgesForNode, if_neg hle, if_neg hfar, if_pos hclear,
                  if_pos hbreak]
                simp [EdgeRec.mirror]
              · simp at he
          · rw [if_neg hbreak] at he
            rcases List.mem_cons.mp he with rfl | he
            · refine ⟨nodeB, List.mem_cons_self _ _, hlt, hnear, hclear, rfl, rfl,
                Or.inl ⟨rfl, rfl⟩, ?_⟩
              rw [buildEdgesForNode, if_neg hle, if_neg hfar, if_pos hclear,
                if_neg hbreak]
              simp [EdgeRec.mirror]
            · rcases List.mem_cons.mp he with rfl | he
              · refine ⟨nodeB, List.mem_cons_self _ _, hlt, hnear, hclear, rfl, rfl,
                  Or.inr ⟨rfl, rfl⟩, ?_⟩
                rw [buildEdgesForNode, if_neg hle, if_neg hfar, if_pos hclear,
                  if_neg hbreak]
                simp [EdgeRec.mirror]
              · rcases ih (added + 1) e he with ⟨B, hB, h1, h2, h3, h4, h5, h6, h7⟩
                refine ⟨B, List.mem_cons_of_mem _ hB, h1, h2, h3, h4, h5, h6, ?_⟩
                rw [buildEdgesForNode, if_neg hle, if_neg hfar, if_pos hclear,
                  if_neg hbreak]
                exact List.mem_cons_of_mem _ (List.mem_cons_of_mem _ h7)
        · rw [if_neg hclear] at he
          rcases ih added e he with ⟨B, hB, hrest⟩
          refine ⟨B, List.mem_cons_of_mem _ hB, ?_⟩
          rw [buildEdgesForNode, if_neg hle, if_neg hfar, if_neg hclear]
          exact hrest

theorem buildEdgesForFloorGo_spec (cm : CollisionModel) (cosDeg sqrtQ : ℚ → ℚ)
    (nodes : List Node) (floorId : FloorId) (maxDistance : ℚ)
    (spatialQuery : Option (Rect → List Node)) (maxNeighbors : Option Nat) :
    ∀ rem : List Node, (∀ A ∈ rem, A ∈ nodes) →
      ∀ e ∈ buildEdgesForFloorGo cm cosDeg sqrtQ nodes floorId maxDistance
          spatialQuery maxNeighbors rem,
        ∃ A ∈ nodes,
          e ∈ buildEdgesForNode cm cosDeg sqrtQ floorId
            (maxDistance * maxDistance) A maxNeighbors
            (candidatesFor nodes spatialQuery (maxDistance / 111320)
              (maxNeighbors.map (fun k => max k (k * 6))) A) 0 ∧
          EdgeRec.mirror e ∈ buildEdgesForFloorGo cm cosDeg sqrtQ nodes floorId
            maxDistance spatialQuery maxNeighbors rem := by
  intro rem
  induction rem with
  | nil => intro _ e he; simp [buildEdgesForFloorGo] at he
  | cons nodeA rest ih =>
    intro hsub e he
    rw [buildEdgesForFloorGo] at he
    rcases List.mem_append.mp he with hleft | hright
    · rcases buildEdgesForNode_spec cm cosDeg sqrtQ floorId
          (maxDistance * maxDistance) nodeA maxNeighbors _ 0 e hleft with
        ⟨B, _, _, _, _, _, _, _, hmirror⟩
      refine ⟨nodeA, hsub nodeA (List.mem_cons_self _ _), hleft, ?_⟩
      rw [buildEdgesForFloorGo]
      exact List.mem_append.mpr (Or.inl hmirror)
    · rcases ih (fun A hA => hsub A (List.mem_cons_of_mem _ hA)) e hright with
        ⟨A, hA, hnode, hmirror⟩
      refine ⟨A, hA, hnode, ?_⟩
      rw [buildEdgesForFloorGo]
      exact List.mem_append.mpr (Or.inr hmirror)

/-- C1. Every edge emitted by `EdgeBuilder.buildEdgesForFloor` joins two
nodes `A`, `B` of the floor with `id(B) > id(A)`, squared equirectangular
meter distance at most `max_distance²` (the code's exact meter check),
and line-of-sight (`CollisionDetector.isPathClear`); the edge carries
weight `sqrt` of that squared distance and type `walkable`, and the
opposite directed edge with identical weight and type is emitted too.
Both endpoints lie on the floor being built, given that the node list and
the spatial index serve only nodes of that floor. -/
theorem c1_visibility_edges (cm : CollisionModel) (cosDeg sqrtQ : ℚ → ℚ)
    (nodes : List Node) (floorId : FloorId) (maxDistance : ℚ)
    (spatialQuery : Option (Rect → List Node)) (maxNeighbors : Option Nat)
    (hnodes : ∀ n ∈ nodes, n.floorId = floorId)
    (hquery : ∀ q, spatialQuery = some q → ∀ r, ∀ n ∈ q r, n ∈ nodes) :
    ∀ e ∈ buildEdgesForFloor cm cosDeg sqrtQ nodes floorId maxDistance
        spatialQuery maxNeighbors,
      ∃ A B : Node, A ∈ nodes ∧ B ∈ nodes ∧
        A.floorId = floorId ∧ B.floorId = floorId ∧
        A.id < B.id ∧
        edgeDistSqMeters cosDeg A B ≤ maxDistance * maxDistance ∧
        isPathClear cm A.coords B.coords floorId = true ∧
        e.weight = sqrtQ (edgeDistSqMeters cosDeg A B) ∧
        e.type = "walkable" ∧
        ((e.fromId = A.id ∧ e.toId = B.id) ∨ (e.fromId = B.id ∧ e.toId = A.id)) ∧
        e.mirror ∈ buildEdgesForFloor cm cosDeg sqrtQ nodes floorId maxDistance
          spatialQuery maxNeighbors ∧
        e.mirror.weight = e.weight := by
  intro e he
  rcases buildEdgesForFloorGo_spec cm cosDeg sqrtQ nodes floorId maxDistance
      spatialQuery maxNeighbors nodes (fun A hA => hA) e he with
    ⟨A, hA, hnode, hmirror⟩
  rcases buildEdgesForNode_spec cm cosDeg sqrtQ floorId
      (maxDistance * maxDistance) A maxNeighbors _ 0 e hnode with
    ⟨B, hBcand, hlt, hnear, hclear, hweight, htype, hdir, _⟩
  have hB : B ∈ nodes := candidatesFor_subset nodes spatialQuery _ _ A hquery B hBcand
  exact ⟨A, B, hA, hB, hnodes A hA, hnodes B hB, hlt, hnear, hclear, hweight,
    htype, hdir, hmirror, rfl⟩

def nodeWa : Node := { id := "a", coords := (0, 0), floorId := "f0" }

def nodeWb : Node := { id := "b", coords := (0, 0), floorId := "f0" }

/-- Witness for C1: a two-node floor (both at the origin, 0m apart) with
no obstacles and no spatial index; the builder emits the pair of directed
edges between them. -/
theorem c1_visibility_edges_witness :
    ∃ A B : Node, A ∈ [nodeWa, nodeWb] ∧ B ∈ [nodeWa, nodeWb] ∧
      A.floorId = "f0" ∧ B.floorId = "f0" ∧
      A.id < B.id ∧
      edgeDistSqMeters (fun _ => 1) A B ≤ 15 * 15 ∧
      isPathClear cmClear A.coords B.coords "f0" = true ∧
      ({ fromId := "a", toId := "b", weight := 0, type := "walkable" } : EdgeRec).weight
        = (fun q => q) (edgeDistSqMeters (fun _ => 1) A B) ∧
      ({ fromId := "a", toId := "b", weight := 0, type := "walkable" } : EdgeRec).type
        = "walkable" ∧
      ((({ fromId := "a", toId := "b", weight := 0, type := "walkable" } : EdgeRec).fromId = A.id ∧
          ({ fromId := "a", toId := "b", weight := 0, type := "walkable" } : EdgeRec).toId = B.id) ∨
        (({ fromId := "a", toId := "b", weight := 0, type := "walkable" } : EdgeRec).fromId = B.id ∧
          ({ fromId := "a", toId := "b", weight := 0, type := "walkable" } : EdgeRec).toId = A.id)) ∧
      ({ fromId := "a", toId := "b", weight := 0, type := "walkable" } : EdgeRec).mirror ∈
        buildEdgesForFloor cmClear (fun _ => 1) (fun q => q) [nodeWa, nodeWb] "f0" 15
          none none ∧
      ({ fromId := "a", toId := "b", weight := 0, type := "walkable" } : EdgeRec).mirror.weight
        = ({ fromId := "a", toId := "b", weight := 0, type := "walkable" } : EdgeRec).weight := by
  have he : ({ fromId := "a", toId := "b", weight := 0, type := "walkable" } : EdgeRec) ∈
      buildEdgesForFloor cmClear (fun _ => 1) (fun q => q) [nodeWa, nodeWb] "f0" 15
        none none := by
    have hba : ¬ (("b" : String) ≤ "a") := by simp; decide
    have haa : ("a" : String) ≤ "a" := le_refl _
    have hbb : ("b" : String) ≤ "b" := le_refl _
    simp +decide [buildEdgesForFloor, buildEdgesForFloorGo, candidatesFor,
      buildEdgesForNode, edgeDistSqMeters, isPathClear, cmClear, nodeWa, nodeWb,
      haa, hba, hbb]
    norm_num [buildEdgesForNode, edgeDistSqMeters, isPathClear, cmClear,
      haa, hba, hbb]
  exact c1_visibility_edges cmClear (fun _ => 1) (fun q => q) [nodeWa, nodeWb] "f0"
    15 none none (by decide) (fun q h => nomatch h) _ he

/-! ## NavigationController -/

structure UserLocation where
  coords : Coord
  floorId : FloorId
  snappedCoords : Option Coord := none

structure Destination where
  coords : Option Coord
  floorId : FloorId

/-- The route as augmented by `NavigationController.computeRoute` (the JS
mutates the engine route in place, adding these fields). -/
structure ControllerRoute where
  route : Route
  fullPath : List Coord
  startCoords : Coord
  endCoords : Coord
  anchorStartCoords : Coord
  anchorEndCoords : Coord
  startInside : Bool
  endInside : Bool
deriving DecidableEq

/-- The controller state read by `computeRoute`; `isInsideWalkableArea` is
the turf polygon containment over the loaded walkable areas. -/
structure Controller where
  engine : Engine
  userLocation : Option UserLocation
  destination : Option Destination
  isInsideWalkableArea : Coord → Bool
  groundFloorId : Option FloorId
  currentRoute : Option ControllerRoute := none

/-- `NavigationController.findNearestEntranceNode`: entrance-typed nodes,
preferring the given floor when any exist there, nearest by geodesic
distance. -/
def findNearestEntranceNode (c : Controller) (coords : Coord)
    (preferredFloorId : Option FloorId) : Option Node :=
  let candidates := c.engine.graph.nodes.filter (fun (node : Node) => node.type == "entrance")
  let candidates :=
    match preferredFloorId with
    | some fid =>
      let sameFloor := candidates.filter (fun (node : Node) => node.floorId == fid)
      if !sameFloor.isEmpty then sameFloor else candidates
    | none => candidates
  (candidates.foldl
    (fun acc node =>
      let d := c.engine.dist coords node.coords
      match acc with
      | none => some (node, d)
      | some best => if d < best.2 then some (node, d) else acc)
    none).map Prod.fst

/-- `NavigationController.computeRoute`: entrance redirection for outside
endpoints, the engine query, and the unconditional stitching of the raw
start and end coordinates onto the returned path. -/
def computeRoute (c : Controller) (options : RouteOptions) :
    Option ControllerRoute × Controller :=
  match c.userLocation, c.destination with
  | some userLocation, some destination =>
    match destination.coords with
    | none => (none, c)
    | some rawEndCoords =>
      let rawStartCoords := userLocation.coords
      let startInside := c.isInsideWalkableArea rawStartCoords
      let endInside := c.isInsideWalkableArea rawEndCoords
      let startAnchor :=
        if !startInside && endInside then
          match findNearestEntranceNode c rawStartCoords c.groundFloorId with
          | some entrance => (entrance.coords, entrance.floorId)
          | none => (userLocation.snappedCoords.getD rawStartCoords, userLocation.floorId)
        else (userLocation.snappedCoords.getD rawStartCoords, userLocation.floorId)
      let endAnchor :=
        if startInside && !endInside then
          match findNearestEntranceNode c rawEndCoords c.groundFloorId with
          | some entrance => (entrance.coords, entrance.floorId)
          | none => (rawEndCoords, destination.floorId)
        else (rawEndCoords, destination.floorId)
      if !startInside && !endInside then (none, { c with currentRoute := none })
      else
        match findRoute c.engine startAnchor.1 endAnchor.1 startAnchor.2
            endAnchor.2 options with
        | (some route, eng2) =>
          let cr : ControllerRoute :=
            { route := route
              fullPath := rawStartCoords :: route.path ++ [rawEndCoords]
              startCoords := rawStartCoords
              endCoords := rawEndCoords
              anchorStartCoords := startAnchor.1
              anchorEndCoords := endAnchor.1
              startInside := startInside
              endInside := endInside }
          (some cr, { c with engine := eng2, currentRoute := some cr })
        | (none, eng2) => (none, { c with engine := eng2 })
  | _, _ => (none, c)

/-! ## Claim C2: same-room trivial route -/

/-- C2. For a query (served by the engine, i.e. missing the path cache)
whose endpoints lie in the same room with a clear segment between them,
`findRoute` returns the trivial route: the path is exactly the two
endpoint coordinates, `node_ids` is empty, and the distance is the
geodesic distance between the endpoints. -/
theorem c2_same_room_trivial_route (eng : Engine) (startCoords endCoords : Coord)
    (startFloorId endFloorId : FloorId) (options : RouteOptions)
    (startRoom endRoom : Room)
    (hmiss : mapGet? eng.pathCache
      (generateKey startCoords endCoords startFloorId endFloorId options) = none)
    (hsnap : options.snapToDoors = true)
    (hsr : findRoomAtPoint eng startCoords startFloorId = some startRoom)
    (her : findRoomAtPoint eng endCoords endFloorId = some endRoom)
    (hsame : startRoom.geometryId = endRoom.geometryId)
    (hclear : isPathClear eng.cm startCoords endCoords startFloorId = true) :
    ∃ route : Route,
      (findRoute eng startCoords endCoords startFloorId endFloorId options).1
        = some route ∧
      route.path = [startCoords, endCoords] ∧
      route.nodeIds = [] ∧
      route.distance = eng.dist startCoords endCoords := by
  have hout : findRouteMiss eng startCoords endCoords startFloorId endFloorId options
      = RouteOutcome.early (sameRoomRoute eng startCoords endCoords startFloorId
          endFloorId startRoom.geometryId endRoom.geometryId) := by
    rw [findRouteMiss]
    simp only [hsnap, if_pos, hsr, her, hsame]
    simp [hclear, hsame]
  refine ⟨sameRoomRoute eng startCoords endCoords startFloorId endFloorId
    startRoom.geometryId endRoom.geometryId, ?_, rfl, rfl, rfl⟩
  cases huse : options.useCache with
  | true =>
    simp only [findRoute, huse, if_true, pathCacheGet, hmiss, hout]
  | false =>
    simp only [findRoute, huse, Bool.false_eq_true, if_false, hout]

/-- An engine with one all-containing room `r` on floor `f0` and no
obstacles, used as the C2 witness. -/
def roomW : Room :=
  { geometryId := "r", floorId := "f0", bbox := (-1, -1, 1, 1)
    contains := fun _ => true }

def engC2 : Engine :=
  { graph := { nodes := [], edgesOut := fun _ => [] }
    cm := cmClear
    dist := distTaxi
    roomIndex := fun fid => if fid = "f0" then [roomW] else []
    roomDoorIndex := []
    roomMeta := []
    walkableNodesByFloor := fun _ => []
    pathCache := []
    lastRouteError := none
    graphFindNearestNode := fun _ _ => none
    graphFindNearestNodesInRadius := fun _ _ _ _ => []
    graphFindNearestNodeExpanded := fun _ _ => none
    astarFuel := 0 }

/-- Witness for C2 on a concrete engine: both endpoints at the origin
inside room `r`. -/
theorem c2_same_room_trivial_route_witness :
    ∃ route : Route,
      (findRoute engC2 (0, 0) (0, 0) "f0" "f0" {}).1 = some route ∧
      route.path = [(0, 0), (0, 0)] ∧
      route.nodeIds = [] ∧
      route.distance = engC2.dist (0, 0) (0, 0) := by
  have hroom : findRoomAtPoint engC2 ((0 : ℚ), (0 : ℚ)) "f0" = some roomW := by
    rw [findRoomAtPoint]
    simp [engC2, roomW, List.find?]
    norm_num
  exact c2_same_room_trivial_route engC2 (0, 0) (0, 0) "f0" "f0" {} roomW roomW
    rfl rfl hroom hroom rfl (by rfl)

/-! ## Claim C10: same-room blocked query fails fast with no-path -/

/-- C10. For a query (missing the path cache) whose endpoints lie in the
same room but with `is_path_clear` false, `findRoute` returns `null` with
error `no-path` immediately: the result and the recorded error do not
depend on the graph, the door index, the walkable-node index, any of the
nearest-node fallback queries, or the A* fuel — door anchoring, candidate
selection, fallbacks and graph search are never attempted. -/
theorem c10_same_room_blocked (eng : Engine) (startCoords endCoords : Coord)
    (startFloorId endFloorId : FloorId) (options : RouteOptions)
    (startRoom endRoom : Room)
    (hmiss : mapGet? eng.pathCache
      (generateKey startCoords endCoords startFloorId endFloorId options) = none)
    (hsnap : options.snapToDoors = true)
    (hsr : findRoomAtPoint eng startCoords startFloorId = some startRoom)
    (her : findRoomAtPoint eng endCoords endFloorId = some endRoom)
    (hsame : startRoom.geometryId = endRoom.geometryId)
    (hblocked : isPathClear eng.cm startCoords endCoords startFloorId = false) :
    (findRoute eng startCoords endCoords startFloorId endFloorId options).1 = none ∧
    (findRoute eng startCoords endCoords startFloorId endFloorId options).2.lastRouteError
      = some { code := "no-path", message := "No clear path inside this room." } ∧
    ∀ (g : Graph) (rdi : List (String × List Node)) (w : FloorId → List Node)
      (f1 : Coord → FloorId → Option Node)
      (f2 : Coord → FloorId → ℚ → Nat → List Node)
      (f3 : Coord → FloorId → Option Node) (fuel : Nat),
      (findRoute { eng with
          graph := g
          roomDoorIndex := rdi
          walkableNodesByFloor := w
          graphFindNearestNode := f1
          graphFindNearestNodesInRadius := f2
          graphFindNearestNodeExpanded := f3
          astarFuel := fuel } startCoords endCoords startFloorId endFloorId options).1
        = none ∧
      (findRoute { eng with
          graph := g
          roomDoorIndex := rdi
          walkableNodesByFloor := w
          graphFindNearestNode := f1
          graphFindNearestNodesInRadius := f2
          graphFindNearestNodeExpanded := f3
          astarFuel := fuel } startCoords endCoords startFloorId endFloorId
          options).2.lastRouteError
        = some { code := "no-path", message := "No clear path inside this room." } := by
  have key : ∀ e : Engine, e.roomIndex = eng.roomIndex → e.cm = eng.cm →
      e.pathCache = eng.pathCache →
      (findRoute e startCoords endCoords startFloorId endFloorId options).1 = none ∧
      (findRoute e startCoords endCoords startFloorId endFloorId
          options).2.lastRouteError
        = some { code := "no-path", message := "No clear path inside this room." } := by
    intro e hri hcm hpc
    have hsr2 : findRoomAtPoint e startCoords startFloorId = some startRoom := by
      rw [findRoomAtPoint, hri, ← findRoomAtPoint]; exact hsr
    have her2 : findRoomAtPoint e endCoords endFloorId = some endRoom := by
      rw [findRoomAtPoint, hri, ← findRoomAtPoint]; exact her
    have hout : findRouteMiss e startCoords endCoords startFloorId endFloorId options
        = RouteOutcome.failure
            { code := "no-path", message := "No clear path inside this room." } := by
      rw [findRouteMiss]
      simp only [hsnap, if_pos, hsr2, her2, hsame, hcm]
      simp [hblocked, hsame]
    cases huse : options.useCache with
    | true =>
      constructor <;>
        simp only [findRoute, huse, if_true, pathCacheGet, hpc, hmiss, hout]
    | false =>
      constructor <;>
        simp only [findRoute, huse, Bool.false_eq_true, if_false, hout]
  refine ⟨(key eng rfl rfl rfl).1, (key eng rfl rfl rfl).2, ?_⟩
  intro g rdi w f1 f2 f3 fuel
  exact key _ rfl rfl rfl

/-- An engine like `engC2` whose collision model blocks every segment. -/
def engC10 : Engine :=
  { engC2 with
    cm := { pointInObstacle := fun _ _ => false
            lineIntersectsObstacle := fun _ _ _ => true } }

/-- Witness for C10 on a concrete engine: both endpoints in room `r`, the
segment between them intersecting an obstacle. -/
theorem c10_same_room_blocked_witness :
    (findRoute engC10 (0, 0) (0, 0) "f0" "f0" {}).1 = none ∧
    (findRoute engC10 (0, 0) (0, 0) "f0" "f0" {}).2.lastRouteError
      = some { code := "no-path", message := "No clear path inside this room." } ∧
    ∀ (g : Graph) (rdi : List (String × List Node)) (w : FloorId → List Node)
      (f1 : Coord → FloorId → Option Node)
      (f2 : Coord → FloorId → ℚ → Nat → List Node)
      (f3 : Coord → FloorId → Option Node) (fuel : Nat),
      (findRoute { engC10 with
          graph := g
          roomDoorIndex := rdi
          walkableNodesByFloor := w
          graphFindNearestNode := f1
          graphFindNearestNodesInRadius := f2
          graphFindNearestNodeExpanded := f3
          astarFuel := fuel } (0, 0) (0, 0) "f0" "f0" {}).1 = none ∧
      (findRoute { engC10 with
          graph := g
          roomDoorIndex := rdi
          walkableNodesByFloor := w
          graphFindNearestNode := f1
          graphFindNearestNodesInRadius := f2
          graphFindNearestNodeExpanded := f3
          astarFuel := fuel } (0, 0) (0, 0) "f0" "f0" {}).2.lastRouteError
        = some { code := "no-path", message := "No clear path inside this room." } := by
  have hroom : findRoomAtPoint engC10 ((0 : ℚ), (0 : ℚ)) "f0" = some roomW := by
    rw [findRoomAtPoint]
    simp [engC10, engC2, roomW, List.find?]
    norm_num
  exact c10_same_room_blocked engC10 (0, 0) (0, 0) "f0" "f0" {} roomW roomW
    rfl rfl hroom hroom rfl (by rfl)

/-! ## Claim C6: private room with only locked doors -/

def doorLockedC6 : Node :=
  { id := "door_d1", coords := (0, 0), floorId := "f0", type := "door"
    metadata := { isDoor := true, isLocked := true } }

/-- An engine whose only room `r` is private (one door, zero public
doors, area 1) and whose single door is locked. -/
def engC6 : Engine :=
  { engC2 with
    roomDoorIndex := [("r", [doorLockedC6])]
    roomMeta := [("r", { area := 1, doorCount := 1, publicDoorCount := 0 })] }

/-- Counterexample to C6: both endpoints lie inside the private room `r`,
all of whose doors are locked, with `allow_locked_doors = false` — yet
`findRoute` returns a (same-room trivial) route instead of `null`, and no
`no-door` error is recorded: the same-room shortcut precedes the door
check. -/
theorem c6_counterexample :
    (findRoomAtPoint engC6 (0, 0) "f0").map Room.geometryId = some "r" ∧
    isPublicRoomMeta 2 80 (mapGet? engC6.roomMeta "r") = false ∧
    mapGet? engC6.roomDoorIndex "r" = some [doorLockedC6] ∧
    doorLockedC6.metadata.isLocked = true ∧
    ({} : RouteOptions).allowLockedDoors = false ∧
    (findRoute engC6 (0, 0) (0, 0) "f0" "f0" {}).1 ≠ none ∧
    (findRoute engC6 (0, 0) (0, 0) "f0" "f0" {}).2.lastRouteError = none := by
  have hroom : findRoomAtPoint engC6 ((0 : ℚ), (0 : ℚ)) "f0" = some roomW := by
    rw [findRoomAtPoint]
    simp [engC6, engC2, roomW, List.find?]
    norm_num
  have hout : findRouteMiss engC6 (0, 0) (0, 0) "f0" "f0" {}
      = RouteOutcome.early (sameRoomRoute engC6 (0, 0) (0, 0) "f0" "f0" "r" "r") := by
    rw [findRouteMiss]
    simp only [hroom]
    simp [roomW, engC6, engC2, cmClear, isPathClear, sameRoomRoute]
  have hfr1 : (findRoute engC6 (0, 0) (0, 0) "f0" "f0" {}).1
      = some (sameRoomRoute engC6 (0, 0) (0, 0) "f0" "f0" "r" "r") := by
    rw [findRoute, hout]
    simp [pathCacheGet, mapGet?, engC6, engC2]
  have hfr2 : (findRoute engC6 (0, 0) (0, 0) "f0" "f0" {}).2.lastRouteError = none := by
    rw [findRoute, hout]
    simp [pathCacheGet, mapGet?, engC6, engC2]
  refine ⟨by rw [hroom]; rfl, by decide, by decide, by decide, rfl, ?_, hfr2⟩
  rw [hfr1]
  simp

/-- C6 as amended: for a query that misses the path cache and whose start
and end do not lie in the same room, if an endpoint lies in a private
room (by the public-room thresholds) all of whose doors are locked and
`allow_locked_doors` is false, `findRoute` returns `null` and records the
error code `no-door` (for the destination endpoint this holds whenever
the start endpoint lies in no room). -/
theorem c6_amended (eng : Engine) (startCoords endCoords : Coord)
    (startFloorId endFloorId : FloorId) (options : RouteOptions)
    (hmiss : mapGet? eng.pathCache
      (generateKey startCoords endCoords startFloorId endFloorId options) = none)
    (hsnap : options.snapToDoors = true)
    (hlock : options.allowLockedDoors = false) :
    (∀ (startRoom : Room) (endRoomOpt : Option Room) (doors : List Node),
      findRoomAtPoint eng startCoords startFloorId = some startRoom →
      findRoomAtPoint eng endCoords endFloorId = endRoomOpt →
      (∀ er, endRoomOpt = some er → (startRoom.geometryId == er.geometryId) = false) →
      isPublicRoomMeta (options.publicRoomDoorCount.getD 2)
        (options.publicRoomArea.getD 80)
        (mapGet? eng.roomMeta startRoom.geometryId) = false →
      mapGet? eng.roomDoorIndex startRoom.geometryId = some doors →
      doors ≠ [] →
      (∀ d ∈ doors, d.metadata.isLocked = true) →
      (findRoute eng startCoords endCoords startFloorId endFloorId options).1 = none ∧
      (findRoute eng startCoords endCoords startFloorId endFloorId
          options).2.lastRouteError
        = some { code := "no-door"
                 message := "All doors are locked for the start room." }) ∧
    (∀ (endRoom : Room) (doors : List Node),
      findRoomAtPoint eng startCoords startFloorId = none →
      findRoomAtPoint eng endCoords endFloorId = some endRoom →
      isPublicRoomMeta (options.publicRoomDoorCount.getD 2)
        (options.publicRoomArea.getD 80)
        (mapGet? eng.roomMeta endRoom.geometryId) = false →
      mapGet? eng.roomDoorIndex endRoom.geometryId = some doors →
      doors ≠ [] →
      (∀ d ∈ doors, d.metadata.isLocked = true) →
      (findRoute eng startCoords endCoords startFloorId endFloorId options).1 = none ∧
      (findRoute eng startCoords endCoords startFloorId endFloorId
          options).2.lastRouteError
        = some { code := "no-door"
                 message := "All doors are locked for the destination room." }) := by
  constructor
  · intro startRoom endRoomOpt doors hsr her hnotsame hpriv hdoors hne hlocked
    have havail : doors.filter
        (fun door => options.allowLockedDoors || !door.metadata.isLocked) = [] := by
      rw [List.filter_eq_nil_iff]
      intro d hd
      simp [hlock, hlocked d hd]
    have htot : (0 < doors.length) = True := by
      simp [List.length_pos, hne]
    have hout : findRouteMiss eng startCoords endCoords startFloorId endFloorId
        options = RouteOutcome.failure
          { code := "no-door"
            message := "All doors are locked for the start room." } := by
      rw [findRouteMiss]
      rcases endRoomOpt with _ | endRoom
      · simp only [hsnap, if_pos, hsr, her]
        rw [findRouteAnchored]
        simp [hpriv, getRoomDoorCandidates, hdoors, havail, htot]
      · have hbeq := hnotsame endRoom rfl
        simp only [hsnap, if_pos, hsr, her, hbeq]
        rw [findRouteAnchored]
        simp [hpriv, getRoomDoorCandidates, hdoors, havail, htot]
    cases huse : options.useCache with
    | true =>
      constructor <;>
        simp only [findRoute, huse, if_true, pathCacheGet, hmiss, hout]
    | false =>
      constructor <;>
        simp only [findRoute, huse, Bool.false_eq_true, if_false, hout]
  · intro endRoom doors hsr her hpriv hdoors hne hlocked
    have havail : doors.filter
        (fun door => options.allowLockedDoors || !door.metadata.isLocked) = [] := by
      rw [List.filter_eq_nil_iff]
      intro d hd
      simp [hlock, hlocked d hd]
    have htot : (0 < doors.length) = True := by
      simp [List.length_pos, hne]
    have hout : findRouteMiss eng startCoords endCoords startFloorId endFloorId
        options = RouteOutcome.failure
          { code := "no-door"
            message := "All doors are locked for the destination room." } := by
      rw [findRouteMiss]
      simp only [hsnap, if_pos, hsr, her]
      rw [findRouteAnchored]
      simp [hpriv, getRoomDoorCandidates, hdoors, havail, htot]
    cases huse : options.useCache with
    | true =>
      constructor <;>
        simp only [findRoute, huse, if_true, pathCacheGet, hmiss, hout]
    | false =>
      constructor <;>
        simp only [findRoute, huse, Bool.false_eq_true, if_false, hout]

/-- Witness for the amended C6: start inside the locked-door private room
`r`, destination on a room-less floor. -/
theorem c6_amended_witness :
    (findRoute engC6 (0, 0) (5, 5) "f0" "g1" {}).1 = none ∧
    (findRoute engC6 (0, 0) (5, 5) "f0" "g1" {}).2.lastRouteError
      = some { code := "no-door"
               message := "All doors are locked for the start room." } := by
  have hsr : findRoomAtPoint engC6 ((0 : ℚ), (0 : ℚ)) "f0" = some roomW := by
    rw [findRoomAtPoint]
    simp [engC6, engC2, roomW, List.find?]
    norm_num
  have her : findRoomAtPoint engC6 ((5 : ℚ), (5 : ℚ)) "g1" = none := by
    rw [findRoomAtPoint]
    simp [engC6, engC2]
  have hmeta : mapGet? engC6.roomMeta roomW.geometryId
      = some { area := 1, doorCount := 1, publicDoorCount := 0 } := by decide
  exact (c6_amended engC6 (0, 0) (5, 5) "f0" "g1" {} rfl rfl rfl).1 roomW none
    [doorLockedC6] hsr her (fun er h => nomatch h)
    (by norm_num [isPublicRoomMeta, hmeta])
    (by decide) (by decide) (by decide)

/-! ## Claim C9: the last-route-error slot across queries -/


def n1C9 : Node := { id := "n1", coords := (1, 2), floorId := "f0" }

def n2C9 : Node := { id := "n2", coords := (1, 5), floorId := "f0" }

def graphC9 : Graph :=
  { nodes := [n1C9, n2C9]
    edgesOut := fun id =>
      if id = "n1" then [{ target := "n2", weight := some 3 }]
      else if id = "n2" then [{ target := "n1", weight := some 3 }]
      else [] }

/-- A roomless two-node engine: one 3m edge on floor `f0`, nothing on any
other floor. -/
def engC9 : Engine :=
  { graph := graphC9
    cm := cmClear
    dist := distTaxi
    roomIndex := fun _ => []
    roomDoorIndex := []
    roomMeta := []
    walkableNodesByFloor := fun fid => if fid = "f0" then [n1C9, n2C9] else []
    pathCache := []
    lastRouteError := none
    graphFindNearestNode := fun _ _ => none
    graphFindNearestNodesInRadius := fun _ _ _ _ => []
    graphFindNearestNodeExpanded := fun _ _ => none
    astarFuel := 5 }

theorem engC9_nearest_start :
    findNearestWalkableNode engC9 (1, 2) "f0" = some n1C9 := by
  rw [findNearestWalkableNode]
  norm_num [engC9, n1C9, n2C9]

theorem engC9_nearest_end :
    findNearestWalkableNode engC9 (1, 5) "f0" = some n2C9 := by
  rw [findNearestWalkableNode]
  norm_num [engC9, n1C9, n2C9]

def segC9 : Segment :=
  { fromId := "n1", toId := "n2", fromCoords := (1, 2), toCoords := (1, 5)
    distance := 3, floorChange := false, fromFloor := "f0", toFloor := "f0" }

def pathC9 : PathResult :=
  { nodeIds := ["n1", "n2"], nodes := [n1C9, n2C9], coords := [(1, 2), (1, 5)]
    floors := ["f0", "f0"], distance := 3, segments := [segC9] }

/-- The route the two-node engine returns for the query from `(1,1)` to
`(1,4)` on `f0`. -/
def routeC9 : Route :=
  { path := [(1, 2), (1, 5)]
    nodeIds := ["n1", "n2"]
    distance := 3
    floors := ["f0", "f0"]
    segments := [segC9]
    startNode := some n1C9
    endNode := some n2C9
    meta := { startCoords := (1, 2), endCoords := (1, 5)
              startFloorId := "f0", endFloorId := "f0"
              roomTraversalMode := some "all" } }

set_option maxHeartbeats 1000000 in
theorem engC9_findPath (options : RouteOptions)
    (hacc : options.accessibleOnly = false)
    (hav : options.avoidStairs = false)
    (hw : options.heuristicWeight = 1)
    (hdis : options.disallowOtherRooms = false)
    (hnf : options.nodeFilter = some (routeNodeFilter {})) :
    findPath graphC9 distTaxi "n1" "n2" options 5 = some pathC9 := by
  simp +decide [findPath, findPathAux, expandEdge, heapPush, heapPop, bubbleUpGo,
    heapGetI, heapSwap, heuristic, isNodeAllowedFwd, isRoomAllowedFwd, roomIdsOf,
    gLtStored, mapGet?, mapSet, reconstructPath, reconstructIds, buildSegments,
    Graph.getNode, Graph.getEdges, graphC9, n1C9, n2C9, routeNodeFilter,
    pathC9, segC9, distTaxi, hacc, hav, hw, hdis, hnf]
  norm_num

set_option maxHeartbeats 1600000 in
theorem engC9_miss0 :
    findRouteMiss engC9 (1, 2) (1, 5) "f0" "f0" {} = RouteOutcome.success routeC9 := by
  have hri : engC9.roomIndex = fun _ => [] := rfl
  have hcm : engC9.cm = cmClear := rfl
  have hrm : engC9.roomMeta = [] := rfl
  have hrd : engC9.roomDoorIndex = [] := rfl
  have hdist : engC9.dist = distTaxi := rfl
  have hg : engC9.graph = graphC9 := rfl
  have hfuel : engC9.astarFuel = 5 := rfl
  rw [findRouteMiss, findRouteAnchored]
  simp +decide [hri, hcm, hrm, hrd, hdist, hg, hfuel, findRoomAtPoint,
    isPublicRoomMeta, buildAllowedRoomIds, addUnique, pushUnique,
    getRoomDoorCandidates, isConnectorClear, isPathClear, cmClear,
    engC9_nearest_start, engC9_nearest_end, findBestPath, engC9_findPath,
    routeC9, pathC9, segC9, distTaxi, n1C9, n2C9]

/-- The failure recorded when a query has no start anchor at all. -/
def blockedC9 : RouteError :=
  { code := "blocked"
    message := "Cannot find a path from this location. Try clicking closer to a walkable area." }

def keyC9 : CacheKey := generateKey (1, 2) (1, 5) "f0" "f0" {}

/-- The engine after the first (successful, cached) query. -/
def eng1C9 : Engine :=
  { engC9 with
    pathCache := [(keyC9, routeC9)]
    lastRouteError := none }

/-- The engine after the second (failed) query. -/
def eng2C9 : Engine :=
  { eng1C9 with lastRouteError := some blockedC9 }

theorem engC9_q0 :
    findRoute engC9 (1, 2) (1, 5) "f0" "f0" {} = (some routeC9, eng1C9) := by
  have hpc : engC9.pathCache = [] := rfl
  have hms : engC9.pathCacheMaxSize = 100 := rfl
  rw [findRoute]
  simp [pathCacheGet, hpc, mapGet?, engC9_miss0, pathCacheSet, mapSet, eng1C9, keyC9, hms]

set_option maxHeartbeats 800000 in
theorem engC9_miss1 :
    findRouteMiss eng1C9 (9, 9) (9, 10) "g1" "g1" { useCache := false } =
      RouteOutcome.failure blockedC9 := by
  have hri : eng1C9.roomIndex = fun _ => [] := rfl
  have hw : eng1C9.walkableNodesByFloor
      = fun fid => if fid = "f0" then [n1C9, n2C9] else [] := rfl
  have hn1 : eng1C9.graphFindNearestNode = fun _ _ => none := rfl
  have hn2 : eng1C9.graphFindNearestNodesInRadius = fun _ _ _ _ => [] := rfl
  have hn3 : eng1C9.graphFindNearestNodeExpanded = fun _ _ => none := rfl
  rw [findRouteMiss, findRouteAnchored]
  simp +decide [findRoomAtPoint, findNearestWalkableNode, pushUnique,
    hri, hw, hn1, hn2, hn3, blockedC9]

theorem engC9_q1 :
    findRoute eng1C9 (9, 9) (9, 10) "g1" "g1" { useCache := false } =
      (none, eng2C9) := by
  rw [findRoute]
  simp [engC9_miss1, eng2C9]

theorem engC9_q2 :
    findRoute eng2C9 (1, 2) (1, 5) "f0" "f0" {} = (some routeC9, eng2C9) := by
  have hpc : eng2C9.pathCache = [(keyC9, routeC9)] := rfl
  rw [findRoute]
  simp [pathCacheGet, hpc, mapGet?, keyC9, List.find?]
  rw [show generateKey (1, 2) (1, 5) "f0" "f0" ({} : RouteOptions) = keyC9 from rfl, ← hpc]

/-- C9, counterexample: a `findRoute` call served from the path cache does
not overwrite the last-route-error slot. After a successful cached query
(call 1), a failed query (call 2), and an exact repeat of call 1 (call 3,
a cache hit that succeeds and returns the route), `getLastRouteError`
still reports the `blocked` failure of call 2, a failure left over from an
earlier query. -/
theorem c9_counterexample :
    (findRoute
        (findRoute
            (findRoute engC9 (1, 2) (1, 5) "f0" "f0" {}).2
            (9, 9) (9, 10) "g1" "g1" { useCache := false }).2
        (1, 2) (1, 5) "f0" "f0" {}).1.isSome = true ∧
    getLastRouteError
      (findRoute
          (findRoute
              (findRoute engC9 (1, 2) (1, 5) "f0" "f0" {}).2
              (9, 9) (9, 10) "g1" "g1" { useCache := false }).2
          (1, 2) (1, 5) "f0" "f0" {}).2 = some blockedC9 := by
  rw [engC9_q0]
  simp only []
  rw [engC9_q1]
  simp only []
  rw [engC9_q2]
  exact ⟨rfl, rfl⟩

/-! ## Claim C7: stitching of the raw endpoints onto the path -/

/-- The raw user start coordinate of the C7 scenario: about 1.1 m past the
node `n1`, inside the obstacle band. -/
def rawStartC7 : Coord := (1, 200001/100000)

/-- A collision model whose only obstacle is the open band
`2 < lat < 2.1`: the raw user start sits inside it, both graph nodes and
the destination are outside, and no segment-intersection is reported. -/
def cmC7 : CollisionModel :=
  { pointInObstacle := fun p _ => if 2 < p.2 ∧ p.2 < 21/10 then true else false
    lineIntersectsObstacle := fun _ _ _ => false }

/-- The two-node engine of the C9 scenario with the banded obstacle. -/
def engC7 : Engine := { engC9 with cm := cmC7 }

theorem engC7_nearest_start :
    findNearestWalkableNode engC7 rawStartC7 "f0" = some n1C9 := by
  rw [findNearestWalkableNode]
  norm_num [engC7, engC9, n1C9, n2C9, rawStartC7]

theorem engC7_nearest_end :
    findNearestWalkableNode engC7 (1, 5) "f0" = some n2C9 := by
  rw [findNearestWalkableNode]
  norm_num [engC7, engC9, n1C9, n2C9]

/-- The strict connector from the raw start to `n1` is blocked: the raw
start itself lies inside the obstacle band. -/
theorem engC7_conn1 : isConnectorClear engC7 rawStartC7 (1, 2) "f0" = false := by
  rw [isConnectorClear]
  norm_num [isPathClear, engC7, cmC7, rawStartC7]

theorem engC7_conn2 : isConnectorClear engC7 (1, 5) (1, 5) "f0" = true := by
  rw [isConnectorClear]
  norm_num [isPathClear, engC7, cmC7]

/-- The same connector is accepted by the relaxed fallback: it is about
1.1 m long, under the 2 m unconditional threshold. -/
theorem engC7_relaxed1 : isPathClearRelaxed cmC7 rawStartC7 (1, 2) "f0" = true := by
  norm_num [isPathClearRelaxed, relaxedDistMetersSq, rawStartC7]

/-- The route of the C7 scenario: anchored at `n1`/`n2`, its distance
includes the 1.1 m start connector accepted only by the relaxed fallback. -/
def routeC7 : Route :=
  { path := [(1, 2), (1, 5)]
    nodeIds := ["n1", "n2"]
    distance := 300001/100000
    floors := ["f0", "f0"]
    segments := [segC9]
    startNode := some n1C9
    endNode := some n2C9
    meta := { startCoords := rawStartC7, endCoords := (1, 5)
              startFloorId := "f0", endFloorId := "f0"
              roomTraversalMode := some "all" } }

set_option maxHeartbeats 1600000 in
theorem engC7_miss :
    findRouteMiss engC7 rawStartC7 (1, 5) "f0" "f0" {} = RouteOutcome.success routeC7 := by
  have hri : engC7.roomIndex = fun _ => [] := rfl
  have hcm : engC7.cm = cmC7 := rfl
  have hrm : engC7.roomMeta = [] := rfl
  have hrd : engC7.roomDoorIndex = [] := rfl
  have hdist : engC7.dist = distTaxi := rfl
  have hg : engC7.graph = graphC9 := rfl
  have hfuel : engC7.astarFuel = 5 := rfl
  rw [findRouteMiss, findRouteAnchored]
  simp +decide [hri, hcm, hrm, hrd, hdist, hg, hfuel, findRoomAtPoint,
    isPublicRoomMeta, buildAllowedRoomIds, addUnique, pushUnique,
    getRoomDoorCandidates, engC7_nearest_start, engC7_nearest_end,
    engC7_conn1, engC7_conn2, engC7_relaxed1, findBestPath, engC9_findPath,
    routeC7, pathC9, segC9, distTaxi, n1C9, n2C9]
  norm_num [rawStartC7, abs_div]

def keyC7 : CacheKey := generateKey rawStartC7 (1, 5) "f0" "f0" {}

def eng1C7 : Engine :=
  { engC7 with
    pathCache := [(keyC7, routeC7)]
    lastRouteError := none }

theorem engC7_route :
    findRoute engC7 rawStartC7 (1, 5) "f0" "f0" {} = (some routeC7, eng1C7) := by
  have hpc : engC7.pathCache = [] := rfl
  have hms : engC7.pathCacheMaxSize = 100 := rfl
  rw [findRoute]
  simp [pathCacheGet, hpc, mapGet?, engC7_miss, pathCacheSet, mapSet, eng1C7, keyC7, hms]

/-- The C7 controller: the user stands at the raw start (inside the
obstacle band), the destination is the far node, both inside the walkable
area. -/
def ctrlC7 : Controller :=
  { engine := engC7
    userLocation := some { coords := rawStartC7, floorId := "f0" }
    destination := some { coords := some (1, 5), floorId := "f0" }
    isInsideWalkableArea := fun _ => true
    groundFloorId := none }

/-- The controller route produced for the C7 scenario. -/
def crC7 : ControllerRoute :=
  { route := routeC7
    fullPath := [rawStartC7, (1, 2), (1, 5), (1, 5)]
    startCoords := rawStartC7
    endCoords := (1, 5)
    anchorStartCoords := rawStartC7
    anchorEndCoords := (1, 5)
    startInside := true
    endInside := true }

theorem ctrlC7_route :
    computeRoute ctrlC7 {} =
      (some crC7, { ctrlC7 with engine := eng1C7, currentRoute := some crC7 }) := by
  have hu : ctrlC7.userLocation =
      some { coords := rawStartC7, floorId := "f0", snappedCoords := none } := rfl
  have hd : ctrlC7.destination =
      some { coords := some (1, 5), floorId := "f0" } := rfl
  have hin : ctrlC7.isInsideWalkableArea = fun _ => true := rfl
  have heng : ctrlC7.engine = engC7 := rfl
  rw [computeRoute, hu, hd]
  simp [hin, heng, engC7_route, crC7, routeC7]
  exact ⟨hu.symm, hd.symm⟩

/-- C7, counterexample: a successful route whose start connector (the
segment from the raw user coordinate to the first path coordinate) is not
clear — the route was found through the relaxed fallback — yet
`computeRoute` still prepends the raw start coordinate to the returned
path, and nothing on the returned route records a warning (the route
produced by the code has no warning field at all): the claimed
"prepend iff the connector is clear, otherwise a warning" does not hold. -/
theorem c7_counterexample :
    (computeRoute ctrlC7 {}).1 = some crC7 ∧
    isPathClear ctrlC7.engine.cm crC7.startCoords
      (crC7.route.path.headD crC7.startCoords) "f0" = false ∧
    crC7.fullPath = crC7.startCoords :: crC7.route.path ++ [crC7.endCoords] := by
  refine ⟨?_, ?_, ?_⟩
  · rw [ctrlC7_route]
  · norm_num [ctrlC7, engC7, cmC7, crC7, routeC7, isPathClear, rawStartC7]
  · simp [crC7, routeC7]

/-- C7, amended: for every successful `computeRoute`, the raw start
coordinate is prepended and the raw end coordinate appended to the
returned path unconditionally — no clearance condition is consulted and no
warning is attached (the returned route has no warning mechanism). -/
theorem c7_amended (c : Controller) (options : RouteOptions) (cr : ControllerRoute)
    (h : (computeRoute c options).1 = some cr) :
    cr.fullPath = cr.startCoords :: cr.route.path ++ [cr.endCoords] := by
  rw [computeRoute] at h
  rcases hu : c.userLocation with _ | ul <;> rw [hu] at h
  · simp at h
  rcases hd : c.destination with _ | dst <;> rw [hd] at h
  · simp at h
  rcases hdc : dst.coords with _ | rawEnd <;> simp only [hdc] at h
  · simp at h
  repeat' split at h
  all_goals simp at h
  all_goals subst h
  all_goals rfl

theorem c7_amended_witness :
    (computeRoute ctrlC7 {}).1 = some crC7 ∧
    crC7.fullPath = crC7.startCoords :: crC7.route.path ++ [crC7.endCoords] :=
  ⟨by rw [ctrlC7_route], c7_amended ctrlC7 {} crC7 (by rw [ctrlC7_route])⟩

/-- C9 as amended: a `findRoute` call that the engine actually serves
(caching disabled, or a cache miss) overwrites the error slot — afterwards
it is `null` exactly when the call returned a route, and when the served
call fails, the call returns `null` and the slot holds that very call's
failure reason (whatever it held before). A cache hit returns the cached
route and leaves the slot untouched, so a stale failure from an earlier
query survives it. -/
theorem c9_amended (eng : Engine) (startCoords endCoords : Coord)
    (startFloorId endFloorId : FloorId) (options : RouteOptions) :
    ((options.useCache = false ∨
        mapGet? eng.pathCache
          (generateKey startCoords endCoords startFloorId endFloorId options) = none) →
      (((findRoute eng startCoords endCoords startFloorId endFloorId
          options).2.lastRouteError = none ↔
        ((findRoute eng startCoords endCoords startFloorId endFloorId
          options).1).isSome = true) ∧
      (∀ err : RouteError,
        findRouteMiss eng startCoords endCoords startFloorId endFloorId options
          = RouteOutcome.failure err →
        (findRoute eng startCoords endCoords startFloorId endFloorId options).1
          = none ∧
        (findRoute eng startCoords endCoords startFloorId endFloorId
            options).2.lastRouteError = some err))) ∧
    (∀ cached : Route, options.useCache = true →
      mapGet? eng.pathCache
        (generateKey startCoords endCoords startFloorId endFloorId options)
        = some cached →
      (findRoute eng startCoords endCoords startFloorId endFloorId options).1
        = some cached ∧
      (findRoute eng startCoords endCoords startFloorId endFloorId
          options).2.lastRouteError = eng.lastRouteError) := by
  constructor
  · intro hc
    have hmain : ∀ huse : options.useCache = false ∨
        (options.useCache = true ∧ mapGet? eng.pathCache
          (generateKey startCoords endCoords startFloorId endFloorId options) = none),
        (((findRoute eng startCoords endCoords startFloorId endFloorId
            options).2.lastRouteError = none ↔
          ((findRoute eng startCoords endCoords startFloorId endFloorId
            options).1).isSome = true) ∧
        (∀ err : RouteError,
          findRouteMiss eng startCoords endCoords startFloorId endFloorId options
            = RouteOutcome.failure err →
          (findRoute eng startCoords endCoords startFloorId endFloorId options).1
            = none ∧
          (findRoute eng startCoords endCoords startFloorId endFloorId
              options).2.lastRouteError = some err)) := by
      intro huse
      cases hout : findRouteMiss eng startCoords endCoords startFloorId endFloorId
          options with
      | early route =>
        constructor
        · rcases huse with huse | ⟨huse, hmiss⟩ <;>
            simp [findRoute, huse, hout, pathCacheGet, *]
        · intro err hfail
          simp at hfail
      | success route =>
        constructor
        · rcases huse with huse | ⟨huse, hmiss⟩ <;>
            simp [findRoute, huse, hout, pathCacheGet, *]
        · intro err hfail
          simp at hfail
      | failure err0 =>
        constructor
        · rcases huse with huse | ⟨huse, hmiss⟩ <;>
            simp [findRoute, huse, hout, pathCacheGet, *]
        · intro err hfail
          injection hfail with h
          subst h
          rcases huse with huse | ⟨huse, hmiss⟩ <;>
            constructor <;> simp [findRoute, huse, hout, pathCacheGet, *]
    rcases hc with huse | hmiss
    · exact hmain (Or.inl huse)
    · cases huse : options.useCache with
      | false => exact hmain (Or.inl huse)
      | true => exact hmain (Or.inr ⟨huse, hmiss⟩)
  · intro cached huse hhit
    constructor <;> simp [findRoute, huse, pathCacheGet, hhit]

/-- An error value used to populate a concrete stale slot. -/
def blockedErr : RouteError :=
  { code := "blocked"
    message := "Cannot find a path to this destination. Try clicking closer to a walkable area." }

/-- Witness for the amended C9: a served call on an empty-cache engine, a
served call that fails (its failure reason lands in the slot), and a
cache-hit call on an engine with a stale `blocked` error. -/
theorem c9_amended_witness :
    ((findRoute engC2 (0, 0) (0, 0) "f0" "f0" {}).2.lastRouteError = none ↔
      ((findRoute engC2 (0, 0) (0, 0) "f0" "f0" {}).1).isSome = true) ∧
    ((findRoute eng1C9 (9, 9) (9, 10) "g1" "g1" { useCache := false }).1 = none ∧
      (findRoute eng1C9 (9, 9) (9, 10) "g1" "g1"
          { useCache := false }).2.lastRouteError = some blockedC9) ∧
    ((findRoute { engC2 with
        pathCache := [(generateKey (0, 0) (0, 0) "f0" "f0" {}, sampleRoute)]
        lastRouteError := some blockedErr } (0, 0) (0, 0) "f0" "f0" {}).1
      = some sampleRoute ∧
    (findRoute { engC2 with
        pathCache := [(generateKey (0, 0) (0, 0) "f0" "f0" {}, sampleRoute)]
        lastRouteError := some blockedErr } (0, 0) (0, 0) "f0" "f0"
        {}).2.lastRouteError
      = ({ engC2 with
          pathCache := [(generateKey (0, 0) (0, 0) "f0" "f0" {}, sampleRoute)]
          lastRouteError := some blockedErr } : Engine).lastRouteError) := by
  refine ⟨?_, ?_, ?_⟩
  · exact ((c9_amended engC2 (0, 0) (0, 0) "f0" "f0" {}).1 (Or.inr rfl)).1
  · exact ((c9_amended eng1C9 (9, 9) (9, 10) "g1" "g1"
      { useCache := false }).1 (Or.inl rfl)).2 blockedC9 engC9_miss1
  · exact (c9_amended _ (0, 0) (0, 0) "f0" "f0" {}).2 sampleRoute rfl
      (by simp [mapGet?, List.find?])
